import Mathlib

/-!
# EventGo backend — waitlist/ticket core, shallow embedding

This file embeds the waitlist-to-ticket promotion core of the EventGo
backend (Express + PostgreSQL) as pure Lean functions over an explicit
relational state, and proves properties of that embedding.

Modelling conventions:
* the relational store is a `DB` structure of lists of rows; SQL `UPDATE`
  is a `List.map`, `DELETE` a `List.filter`, `INSERT` an append with a
  fresh id drawn from an id counter;
* `SELECT ... LIMIT 1` with an `ORDER BY k ASC` is `minByKey` (first
  row in list order among those with minimal key), plain `SELECT ... `
  with `rows[0]` is `List.find?`;
* timestamps are `Nat` (`NOW()` is an explicit `now` parameter,
  `INTERVAL '30 minutes'` is the constant `reservationWindow`);
* monetary values are exact rationals (`Rat`), matching the spec's
  "exact multiplication prior to rounding" numeric semantics;
* counters are `Int` (SQL integers may go negative under blind
  decrements);
* each route handler body is one function executed sequentially
  (the sequential-interleaving view of the handler's queries).
-/

namespace EventGo

inductive TicketStatus where
  | active | reserved | pending_return | refunded
deriving DecidableEq

inductive TxStatus where
  | pending | completed | cancelled | expired | refunded
deriving DecidableEq

inductive PayMethod where
  | card | paypal | waitlist | waitlist_return
deriving DecidableEq

/-- A row of the `events` table (the fields the core reads/writes). -/
structure Event where
  id : Nat
  organizer_id : Nat
  total_tickets : Int
  tickets_sold : Int
  start_datetime : Nat
  end_datetime : Option Nat
deriving DecidableEq

/-- A row of the `ticket_types` table. -/
structure TicketType where
  id : Nat
  event_id : Nat
  price : Rat
  total_tickets : Int
  tickets_sold : Int
deriving DecidableEq

/-- A row of the `tickets` table. -/
structure Ticket where
  id : Nat
  transaction_id : Nat
  ticket_type_id : Nat
  event_id : Nat
  user_id : Nat
  status : TicketStatus
  issued_at : Nat
deriving DecidableEq

/-- A row of the `transactions` table. -/
structure Transaction where
  id : Nat
  user_id : Nat
  total_price : Rat
  status : TxStatus
  payment_method : PayMethod
deriving DecidableEq

/-- A row of the `waitlist` table. -/
structure WaitlistEntry where
  id : Nat
  user_id : Nat
  event_id : Nat
  joined_at : Nat
  offered_at : Option Nat
  reservation_expires_at : Option Nat
deriving DecidableEq

/-- The relational store: one list per table plus serial-id counters. -/
structure DB where
  users : List Nat
  events : List Event
  ticketTypes : List TicketType
  tickets : List Ticket
  transactions : List Transaction
  waitlist : List WaitlistEntry
  nextTicketId : Nat
  nextTxId : Nat
  nextWaitlistId : Nat
deriving DecidableEq

/-- `SELECT ... ORDER BY key ASC LIMIT 1`: first row in list order among
those with minimal key (stable on ties, like a stable sort). -/
def minByKey (key : α → Nat) : List α → Option α
  | [] => none
  | x :: xs =>
    match minByKey key xs with
    | none => some x
    | some y => if key y < key x then some y else some x

/-- 30-minute reservation window (`NOW() + INTERVAL '30 minutes'`). -/
def reservationWindow : Nat := 30 * 60

/-! ## Row-level helpers (shared SQL statements) -/

def updateTx (db : DB) (txid : Nat) (st : TxStatus) : DB :=
  { db with transactions :=
      db.transactions.map fun tx =>
        if tx.id = txid then { tx with status := st } else tx }

def updateTicketStatus (db : DB) (tid : Nat) (st : TicketStatus) : DB :=
  { db with tickets :=
      db.tickets.map fun t =>
        if t.id = tid then { t with status := st } else t }

def deleteTicketRow (db : DB) (tid : Nat) : DB :=
  { db with tickets := db.tickets.filter (fun t => decide (¬(t.id = tid))) }

def deleteWaitlistRow (db : DB) (wid : Nat) : DB :=
  { db with waitlist := db.waitlist.filter (fun w => decide (¬(w.id = wid))) }

/-- `SELECT status FROM transactions WHERE id = txid` (first row). -/
def txStatusOf (db : DB) (txid : Nat) : Option TxStatus :=
  (db.transactions.find? fun tx => decide (tx.id = txid)).map (·.status)

/-- `SELECT * FROM waitlist WHERE user_id = uid AND event_id = eid`
(first row; the application keeps at most one entry per pair). -/
def entryFor (db : DB) (uid eid : Nat) : Option WaitlistEntry :=
  db.waitlist.find? fun w => decide (w.user_id = uid ∧ w.event_id = eid)

/-! ## Reservation Offer Engine (`assignTicketToWaitlist`, waitlist.js) -/

structure AssignResult where
  assigned : Bool
  user_id : Option Nat
  transaction_id : Option Nat
deriving DecidableEq

/-- `UPDATE waitlist SET offered_at = NOW(), reservation_expires_at =
NOW() + INTERVAL '30 minutes' WHERE id = ..` applied to one row. -/
def claimStamp (now : Nat) (x : WaitlistEntry) : WaitlistEntry :=
  { x with offered_at := some now,
           reservation_expires_at := some (now + reservationWindow) }

/-- `assignTicketToWaitlist(event_id, ticket_type_id)`: claim the
earliest unclaimed waitlist entry of the event, stamp its offer/expiry
timestamps, create a `pending`/`waitlist` transaction priced at the
ticket type's current price (0 if the type is missing), and create a
`reserved` ticket; if no unclaimed entry exists, roll back and return
`assigned:false`. -/
def assignTicketToWaitlist (db : DB) (event_id ticket_type_id now : Nat) :
    DB × AssignResult :=
  match minByKey (fun w => w.joined_at)
      (db.waitlist.filter fun w =>
        decide (w.event_id = event_id ∧ w.offered_at = none)) with
  | none => (db, ⟨false, none, none⟩)
  | some w =>
    let price :=
      ((db.ticketTypes.find? fun tt => decide (tt.id = ticket_type_id)).map
        (·.price)).getD 0
    let claimed := db.waitlist.map (fun x =>
      if x.id = w.id then claimStamp now x else x)
    let db1 := { db with waitlist := claimed }
    let txid := db1.nextTxId
    let newTx : Transaction := ⟨txid, w.user_id, price, .pending, .waitlist⟩
    let db2 := { db1 with transactions := db1.transactions ++ [newTx],
                          nextTxId := txid + 1 }
    let tid := db2.nextTicketId
    let newTk : Ticket :=
      ⟨tid, txid, ticket_type_id, event_id, w.user_id, .reserved, now⟩
    let db3 := { db2 with tickets := db2.tickets ++ [newTk],
                          nextTicketId := tid + 1 }
    (db3, ⟨true, some w.user_id, some txid⟩)

/-! ## Expiration Sweeper (`cleanupExpiredReservations`, waitlist.js) -/

/-- One row of the sweeper's opening `SELECT`. -/
structure ExpiredRow where
  ticketId : Nat
  event_id : Nat
  ticket_type_id : Nat
  user_id : Nat
  transaction_id : Nat
  waitlist_id : Nat
deriving DecidableEq

/-- Does ticket `t` match the sweeper's `SELECT`? (`reserved` ticket,
`pending` transaction, joined waitlist entry with a non-null, passed
`reservation_expires_at`). The `LEFT JOIN` is modelled with `entryFor`
(first matching row; the application keeps one entry per pair). -/
def isExpiredRow (db : DB) (now : Nat) (t : Ticket) : Option ExpiredRow :=
  match entryFor db t.user_id t.event_id with
  | none => none
  | some w =>
    match w.reservation_expires_at with
    | none => none
    | some e =>
      if t.status = .reserved ∧ txStatusOf db t.transaction_id = some .pending ∧
          e < now then
        some ⟨t.id, t.event_id, t.ticket_type_id, t.user_id,
              t.transaction_id, w.id⟩
      else none

/-- The sweeper's opening snapshot `SELECT`. -/
def selectExpired (db : DB) (now : Nat) : List ExpiredRow :=
  db.tickets.filterMap (isExpiredRow db now)

/-- The delete/expire phase of the sweeper's per-row unit of work:
expire the transaction, delete the reserved ticket, delete the waitlist
entry (the code's JS truthiness test skips the delete when the id is
0). -/
def sweepRowDeletes (db : DB) (r : ExpiredRow) : DB :=
  let db1 := updateTx db r.transaction_id .expired
  let db2 := deleteTicketRow db1 r.ticketId
  if r.waitlist_id = 0 then db2 else deleteWaitlistRow db2 r.waitlist_id

/-- The sweeper's per-row unit of work: the delete/expire phase followed
by the offer cascade. -/
def processExpiredRow (db : DB) (now : Nat) (r : ExpiredRow) : DB :=
  (assignTicketToWaitlist (sweepRowDeletes db r) r.event_id r.ticket_type_id now).1

/-- `cleanupExpiredReservations()`: process every row of the opening
snapshot, returning the snapshot's size as the cleaned count. -/
def cleanupExpiredReservations (db : DB) (now : Nat) : DB × Nat :=
  let rows := selectExpired db now
  (rows.foldl (fun d r => processExpiredRow d now r) db, rows.length)

/-! ## Accept handler (`POST /waitlist/accept-ticket/:transaction_id`) -/

inductive AcceptResult where
  | reservationNotFound
  | ticketNotFound
  | expired
  | internalError
  | ok (ticketId : Nat) (refundedTicketId : Option Nat)
       (refund_amount platform_fee : Rat)
deriving DecidableEq

/-- The accept handler's defensive expiry re-check: the claimed entry
(if any) has both timestamps set and `reservation_expires_at < NOW()`. -/
def acceptExpiredCheck (db : DB) (uid eid now : Nat) : Bool :=
  match entryFor db uid eid with
  | none => false
  | some w =>
    match w.offered_at, w.reservation_expires_at with
    | some _, some e => decide (e < now)
    | _, _ => false

/-- `SELECT * FROM tickets WHERE event_id = .. AND ticket_type_id = ..
AND status = 'pending_return' ORDER BY issued_at ASC LIMIT 1`. -/
def pendingReturnOf (db : DB) (eid ttid : Nat) : Option Ticket :=
  minByKey (fun t => t.issued_at)
    (db.tickets.filter fun t =>
      decide (t.event_id = eid ∧ t.ticket_type_id = ttid ∧
              t.status = .pending_return))

/-- Accept a reserved waitlist ticket. On an expired claimed entry:
expire the transaction, delete the reserved ticket, cascade the offer
(the stale waitlist entry is not touched) and fail. Otherwise complete
the transaction, activate the ticket, refund the oldest `pending_return`
ticket of the same event/type at 98% of its original transaction price
(2% platform fee) recording a `refunded`/`waitlist_return` transaction,
and remove the accepting user's waitlist entry. -/
def acceptOffer (db : DB) (transaction_id now : Nat) : DB × AcceptResult :=
  match db.transactions.find? (fun tx =>
      decide (tx.id = transaction_id ∧ tx.status = .pending ∧
              tx.payment_method = .waitlist)) with
  | none => (db, .reservationNotFound)
  | some txn =>
    match db.tickets.find? (fun t =>
        decide (t.transaction_id = transaction_id ∧ t.status = .reserved)) with
    | none => (db, .ticketNotFound)
    | some ticket =>
      if acceptExpiredCheck db txn.user_id ticket.event_id now then
        let db1 := updateTx db transaction_id .expired
        let db2 := deleteTicketRow db1 ticket.id
        ((assignTicketToWaitlist db2 ticket.event_id ticket.ticket_type_id now).1,
         .expired)
      else
        let pendingReturn := pendingReturnOf db ticket.event_id ticket.ticket_type_id
        let db1 := updateTx db transaction_id .completed
        let db2 := updateTicketStatus db1 ticket.id .active
        match pendingReturn with
        | none =>
          let db3 := { db2 with waitlist := db2.waitlist.filter (fun w =>
            decide (¬(w.user_id = txn.user_id ∧ w.event_id = ticket.event_id))) }
          (db3, .ok ticket.id none 0 0)
        | some rt =>
          match db2.transactions.find? (fun tx => decide (tx.id = rt.transaction_id)) with
          | none => (db2, .internalError)
          | some origTx =>
            let originalPrice := origTx.total_price
            let platformFee := originalPrice * (2 / 100)
            let refundAmount := originalPrice - platformFee
            let db3 := updateTicketStatus db2 rt.id .refunded
            let refundTx : Transaction :=
              ⟨db3.nextTxId, rt.user_id, -refundAmount, .refunded, .waitlist_return⟩
            let db4 := { db3 with transactions := db3.transactions ++ [refundTx],
                                  nextTxId := db3.nextTxId + 1 }
            let db5 := { db4 with waitlist := db4.waitlist.filter (fun w =>
              decide (¬(w.user_id = txn.user_id ∧ w.event_id = ticket.event_id))) }
            (db5, .ok ticket.id (some rt.id) refundAmount platformFee)

/-! ## Return/Refund Coordinator (tickets.js) -/

inductive RefundResult where
  | notFound
  | invalidState
  | notSoldOut
  | ok (assigned : Bool)
deriving DecidableEq

/-- `PUT /tickets/:id/refund` (self-service return): only an `active`
ticket of a sold-out event (event counters) may be returned; it becomes
`pending_return` and the Offer Engine is invoked. No counter changes. -/
def selfRefund (db : DB) (ticket_id now : Nat) : DB × RefundResult :=
  match db.tickets.find? (fun t => decide (t.id = ticket_id)) with
  | none => (db, .notFound)
  | some t =>
    match db.events.find? (fun e => decide (e.id = t.event_id)) with
    | none => (db, .notFound)
    | some ev =>
      if ¬(t.status = .active) then (db, .invalidState)
      else if ev.tickets_sold < ev.total_tickets then (db, .notSoldOut)
      else
        let db1 := updateTicketStatus db ticket_id .pending_return
        let ar := assignTicketToWaitlist db1 t.event_id t.ticket_type_id now
        (ar.1, .ok ar.2.assigned)

inductive OrgRefundResult where
  | notFound
  | forbidden
  | invalidState
  | ok (waitlistAssigned : Bool)
deriving DecidableEq

/-- The four direct updates of the organizer-refund handler: ticket
`refunded`, event and ticket-type sold counters decremented, original
transaction `refunded`. -/
def orgRefundUpdates (db : DB) (t : Ticket) : DB :=
  let db1 := updateTicketStatus db t.id .refunded
  let db2 := { db1 with events := db1.events.map (fun (e : Event) =>
    if e.id = t.event_id then { e with tickets_sold := e.tickets_sold - 1 }
    else e) }
  let db3 := { db2 with ticketTypes := db2.ticketTypes.map (fun (tt : TicketType) =>
    if tt.id = t.ticket_type_id then { tt with tickets_sold := tt.tickets_sold - 1 }
    else tt) }
  updateTx db3 t.transaction_id .refunded

/-- `PUT /tickets/:id/organizer-refund`: only the event's organizer may
refund an `active` ticket; the Offer Engine is invoked only when the
event was sold out immediately before the refund. -/
def organizerRefund (db : DB) (ticket_id caller_id now : Nat) :
    DB × OrgRefundResult :=
  match db.tickets.find? (fun t => decide (t.id = ticket_id)) with
  | none => (db, .notFound)
  | some t =>
    match db.events.find? (fun e => decide (e.id = t.event_id)) with
    | none => (db, .notFound)
    | some ev =>
      if ¬(ev.organizer_id = caller_id) then (db, .forbidden)
      else if ¬(t.status = .active) then (db, .invalidState)
      else
        let db4 := orgRefundUpdates db t
        if ev.tickets_sold ≥ ev.total_tickets then
          let ar := assignTicketToWaitlist db4 t.event_id t.ticket_type_id now
          (ar.1, .ok ar.2.assigned)
        else (db4, .ok false)

/-! ## Ticket purchase (`POST /tickets`) -/

inductive PurchaseResult where
  | invalidInput
  | userNotFound
  | eventNotFound
  | eventPast
  | typeNotFound
  | notEnough (available : Int)
  | ok (transaction_id : Nat) (total_price : Rat)
deriving DecidableEq

/-- `sum(ticket_type.tickets_sold)` over an event's ticket types. -/
def sumSold (tts : List TicketType) (eid : Nat) : Int :=
  ((tts.filter (fun tt => decide (tt.event_id = eid))).map (·.tickets_sold)).sum

/-- `sum(ticket_type.total_tickets)` over an event's ticket types. -/
def sumTotal (tts : List TicketType) (eid : Nat) : Int :=
  ((tts.filter (fun tt => decide (tt.event_id = eid))).map (·.total_tickets)).sum

/-- The purchase handler's closing event sync: recompute the event's
`tickets_sold` and `total_tickets` from its ticket types. -/
def syncEventCounts (db : DB) (event_id : Nat) : DB :=
  { db with events := db.events.map (fun e =>
      if e.id = event_id then
        { e with tickets_sold := sumSold db.ticketTypes event_id,
                 total_tickets := sumTotal db.ticketTypes event_id }
      else e) }

/-- The purchase handler's success path: create a `completed`
transaction and `quantity` active tickets, bump the type's sold counter
and recompute the event's aggregates from its ticket types. -/
def purchaseApply (db : DB) (user_id event_id ticket_type_id quantity : Nat)
    (pm : PayMethod) (price : Rat) (now : Nat) : DB × PurchaseResult :=
  let total_price := price * (quantity : Rat)
  let txid := db.nextTxId
  let newTx : Transaction := ⟨txid, user_id, total_price, .completed, pm⟩
  let db1 := { db with transactions := db.transactions ++ [newTx],
                       nextTxId := txid + 1 }
  let newTickets : List Ticket :=
    (List.range quantity).map (fun i =>
      ⟨db1.nextTicketId + i, txid, ticket_type_id, event_id, user_id,
       .active, now⟩)
  let db2 := { db1 with tickets := db1.tickets ++ newTickets,
                        nextTicketId := db1.nextTicketId + quantity }
  let db3 := { db2 with ticketTypes := db2.ticketTypes.map (fun x =>
    if x.id = ticket_type_id then
      { x with tickets_sold := x.tickets_sold + (quantity : Int) }
    else x) }
  (syncEventCounts db3 event_id, .ok txid total_price)

/-- `POST /tickets`: validate, check availability against the ticket
type's counters, then run the success path. -/
def purchaseTickets (db : DB) (user_id event_id ticket_type_id quantity : Nat)
    (pm : PayMethod) (now : Nat) : DB × PurchaseResult :=
  if ¬(1 ≤ event_id ∧ event_id ≤ 2147483647) then (db, .invalidInput)
  else if ¬(1 ≤ ticket_type_id ∧ ticket_type_id ≤ 2147483647) then (db, .invalidInput)
  else if ¬(1 ≤ quantity ∧ quantity ≤ 10) then (db, .invalidInput)
  else if ¬(user_id ∈ db.users) then (db, .userNotFound)
  else
    match db.events.find? (fun e => decide (e.id = event_id)) with
    | none => (db, .eventNotFound)
    | some ev =>
      if ev.end_datetime.getD ev.start_datetime < now then (db, .eventPast)
      else
        match db.ticketTypes.find? (fun tt => decide (tt.id = ticket_type_id)) with
        | none => (db, .typeNotFound)
        | some tt =>
          if tt.total_tickets - tt.tickets_sold < (quantity : Int) then
            (db, .notEnough (tt.total_tickets - tt.tickets_sold))
          else
            purchaseApply db user_id event_id ticket_type_id quantity pm tt.price now

/-! ## Ticket-type recount / sync-all (ticketTypes.js) -/

/-- `PUT /ticket-types/:id/recount`: set the type's `tickets_sold` to
`SELECT COUNT(*) FROM tickets WHERE ticket_type_id = id` (all rows,
regardless of status). The parent event is not updated. -/
def recountTicketType (db : DB) (id : Nat) : DB :=
  { db with ticketTypes := db.ticketTypes.map (fun tt =>
      if tt.id = id then
        { tt with tickets_sold :=
            ((db.tickets.filter (fun t => decide (t.ticket_type_id = id))).length : Int) }
      else tt) }

/-- `POST /ticket-types/sync-all`: recount every type from actual ticket
rows, then recompute every event's aggregates from its types. -/
def syncAllCounts (db : DB) : DB :=
  let tts := db.ticketTypes.map (fun tt =>
    { tt with tickets_sold :=
        ((db.tickets.filter (fun t => decide (t.ticket_type_id = tt.id))).length : Int) })
  let evs := db.events.map (fun e =>
    { e with total_tickets := sumTotal tts e.id,
             tickets_sold := sumSold tts e.id })
  { db with ticketTypes := tts, events := evs }

/-- `DELETE /tickets/:id`: unconditional row delete (no counter sync). -/
def deleteTicket (db : DB) (id : Nat) : DB × Bool :=
  match db.tickets.find? (fun t => decide (t.id = id)) with
  | none => (db, false)
  | some _ => (deleteTicketRow db id, true)

/-! ## Waitlist join / leave (waitlist.js) -/

inductive JoinResult where
  | invalidInput
  | userNotFound
  | eventNotFound
  | eventPast
  | notSoldOut
  | duplicate
  | offered (transaction_id : Nat)
  | joined (entry_id position : Nat)
deriving DecidableEq

/-- `POST /waitlist`: join the waitlist of a sold-out, future event.
If a `pending_return` ticket exists for the event, the joiner is instead
immediately offered it: a `pending`/`waitlist` transaction and a
`reserved` ticket are created and no waitlist entry is inserted. -/
def joinWaitlist (db : DB) (user_id event_id now : Nat) : DB × JoinResult :=
  if ¬(1 ≤ user_id ∧ user_id ≤ 2147483647) then (db, .invalidInput)
  else if ¬(1 ≤ event_id ∧ event_id ≤ 2147483647) then (db, .invalidInput)
  else if ¬(user_id ∈ db.users) then (db, .userNotFound)
  else
    match db.events.find? (fun e => decide (e.id = event_id)) with
    | none => (db, .eventNotFound)
    | some ev =>
      if ev.end_datetime.getD ev.start_datetime < now then (db, .eventPast)
      else if ev.tickets_sold < ev.total_tickets then (db, .notSoldOut)
      else if (entryFor db user_id event_id).isSome then (db, .duplicate)
      else
        match minByKey (fun t => t.issued_at)
            (db.tickets.filter (fun t =>
              decide (t.event_id = event_id ∧ t.status = .pending_return))) with
        | some pt =>
          let price :=
            ((db.ticketTypes.find? (fun tt => decide (tt.id = pt.ticket_type_id))).map
              (·.price)).getD 0
          let txid := db.nextTxId
          let newTx : Transaction := ⟨txid, user_id, price, .pending, .waitlist⟩
          let db1 := { db with transactions := db.transactions ++ [newTx],
                               nextTxId := txid + 1 }
          let newTk : Ticket :=
            ⟨db1.nextTicketId, txid, pt.ticket_type_id, event_id, user_id,
             .reserved, now⟩
          let db2 := { db1 with tickets := db1.tickets ++ [newTk],
                                nextTicketId := db1.nextTicketId + 1 }
          (db2, .offered txid)
        | none =>
          let wid := db.nextWaitlistId
          let entry : WaitlistEntry := ⟨wid, user_id, event_id, now, none, none⟩
          let db1 := { db with waitlist := db.waitlist ++ [entry],
                               nextWaitlistId := wid + 1 }
          let pos :=
            ((db1.waitlist.filter (fun w => decide (w.event_id = event_id))).findIdx
              (fun w => decide (w.id = wid))) + 1
          (db1, .joined wid pos)

/-- `DELETE /waitlist/:id`: unconditional delete (no claimed-state
check); returns the deleted entry. -/
def leaveWaitlist (db : DB) (id : Nat) : DB × Option WaitlistEntry :=
  match db.waitlist.find? (fun w => decide (w.id = id)) with
  | none => (db, none)
  | some w => (deleteWaitlistRow db id, some w)

/-! ## Invariants and well-formedness predicates -/

/-- Aggregate invariant of one event row (spec §8). -/
def eventAggInv (db : DB) (e : Event) : Prop :=
  e.tickets_sold = sumSold db.ticketTypes e.id ∧
  e.total_tickets = sumTotal db.ticketTypes e.id

/-- Aggregate invariant of the store. -/
def aggInv (db : DB) : Prop := ∀ e ∈ db.events, eventAggInv db e

instance (db : DB) (e : Event) : Decidable (eventAggInv db e) := by
  unfold eventAggInv; infer_instance

instance (db : DB) : Decidable (aggInv db) := by
  unfold aggInv; infer_instance

/-- Referential/uniqueness facts the application maintains and the
sweeper's correctness depends on: unique waitlist (user, event) keys,
and id counters dominating all existing ids. -/
def WFc (db : DB) : Prop :=
  (db.waitlist.map (fun w => (w.user_id, w.event_id))).Nodup ∧
  (∀ t ∈ db.tickets, t.transaction_id < db.nextTxId) ∧
  (∀ tx ∈ db.transactions, tx.id < db.nextTxId)

instance (db : DB) : Decidable (WFc db) := by
  unfold WFc; infer_instance

/-- Schema facts used by the aggregate-invariant preservation proof:
ticket-type ids are unique, and every ticket's type exists and belongs
to the ticket's event. -/
def aggWF (db : DB) : Prop :=
  (db.ticketTypes.map (·.id)).Nodup ∧
  ∀ t ∈ db.tickets, ∃ tt ∈ db.ticketTypes,
    tt.id = t.ticket_type_id ∧ tt.event_id = t.event_id

instance (db : DB) : Decidable (aggWF db) := by
  unfold aggWF; infer_instance

/-! ## Concrete states used by witnesses and counterexamples -/

/-- Aggregate invariant holds; one stray active ticket row not reflected
in the type's sold counter (counter drift the recount is meant to fix). -/
def dbC1 : DB :=
  { users := [1, 9]
    events := [⟨100, 9, 5, 0, 10000, none⟩]
    ticketTypes := [⟨10, 100, 50, 5, 0⟩]
    tickets := [⟨1, 1, 10, 100, 1, .active, 0⟩]
    transactions := [⟨1, 1, 50, .completed, .card⟩]
    waitlist := []
    nextTicketId := 2, nextTxId := 2, nextWaitlistId := 1 }

/-- One refunded ticket row of ticket type 10 and nothing else. -/
def dbC3 : DB :=
  { users := [1, 9]
    events := [⟨100, 9, 5, 1, 10000, none⟩]
    ticketTypes := [⟨10, 100, 50, 5, 1⟩]
    tickets := [⟨1, 1, 10, 100, 1, .refunded, 0⟩]
    transactions := [⟨1, 1, 50, .refunded, .card⟩]
    waitlist := []
    nextTicketId := 2, nextTxId := 2, nextWaitlistId := 1 }

/-- Sold-out event; user 1 holds a `pending_return` ticket bought for 50;
user 2 holds a claimed waitlist offer (reserved ticket 2, pending
transaction 3, reservation expires at 1805). -/
def dbC4 : DB :=
  { users := [1, 2, 9]
    events := [⟨100, 9, 2, 2, 10000, none⟩]
    ticketTypes := [⟨10, 100, 50, 2, 2⟩]
    tickets := [⟨1, 1, 10, 100, 1, .pending_return, 0⟩,
                ⟨2, 3, 10, 100, 2, .reserved, 5⟩]
    transactions := [⟨1, 1, 50, .completed, .card⟩,
                     ⟨3, 2, 50, .pending, .waitlist⟩]
    waitlist := [⟨5, 2, 100, 1, some 5, some 1805⟩]
    nextTicketId := 3, nextTxId := 4, nextWaitlistId := 6 }

/-- Sold-out event with an active ticket (id 1, owner 1) and one
unclaimed waitlist entry (user 2), organizer 9. -/
def dbC5 : DB :=
  { users := [1, 2, 9]
    events := [⟨100, 9, 2, 2, 10000, none⟩]
    ticketTypes := [⟨10, 100, 50, 2, 2⟩]
    tickets := [⟨1, 1, 10, 100, 1, .active, 0⟩]
    transactions := [⟨1, 1, 50, .completed, .card⟩]
    waitlist := [⟨5, 2, 100, 1, none, none⟩]
    nextTicketId := 2, nextTxId := 2, nextWaitlistId := 6 }

/-- Event 100 sold out (ticket 1 active); event 200 not sold out
(ticket 2 active). -/
def dbC6 : DB :=
  { users := [1, 2, 9]
    events := [⟨100, 9, 1, 1, 10000, none⟩, ⟨200, 9, 5, 1, 10000, none⟩]
    ticketTypes := [⟨10, 100, 50, 1, 1⟩, ⟨20, 200, 30, 5, 1⟩]
    tickets := [⟨1, 1, 10, 100, 1, .active, 0⟩,
                ⟨2, 2, 20, 200, 1, .active, 0⟩]
    transactions := [⟨1, 1, 50, .completed, .card⟩,
                     ⟨2, 1, 30, .completed, .card⟩]
    waitlist := []
    nextTicketId := 3, nextTxId := 3, nextWaitlistId := 1 }

/-- One expired claimed reservation (entry 5 expired at 1805) and a
second user (3) waiting unclaimed behind it. -/
def dbC7 : DB :=
  { users := [1, 2, 3, 9]
    events := [⟨100, 9, 2, 2, 10000, none⟩]
    ticketTypes := [⟨10, 100, 50, 2, 2⟩]
    tickets := [⟨2, 3, 10, 100, 2, .reserved, 5⟩]
    transactions := [⟨3, 2, 50, .pending, .waitlist⟩]
    waitlist := [⟨5, 2, 100, 1, some 5, some 1805⟩,
                 ⟨6, 3, 100, 2, none, none⟩]
    nextTicketId := 3, nextTxId := 4, nextWaitlistId := 7 }

/-- A store with an empty waitlist. -/
def dbC8 : DB :=
  { users := [1, 9]
    events := [⟨100, 9, 2, 2, 10000, none⟩]
    ticketTypes := [⟨10, 100, 50, 2, 2⟩]
    tickets := [⟨1, 1, 10, 100, 1, .active, 0⟩]
    transactions := [⟨1, 1, 50, .completed, .card⟩]
    waitlist := []
    nextTicketId := 2, nextTxId := 2, nextWaitlistId := 1 }

/-- Start state of the C9 trace: sold-out future event 100; user 1 holds
`pending_return` ticket 1; user 4 holds active ticket 2; user 2 is not
on the waitlist. -/
def dbC9 : DB :=
  { users := [1, 2, 3, 4]
    events := [⟨100, 3, 2, 2, 1000000, none⟩]
    ticketTypes := [⟨10, 100, 20, 2, 2⟩]
    tickets := [⟨1, 1, 10, 100, 1, .pending_return, 0⟩,
                ⟨2, 2, 10, 100, 4, .active, 0⟩]
    transactions := [⟨1, 1, 20, .completed, .card⟩,
                     ⟨2, 4, 20, .completed, .card⟩]
    waitlist := []
    nextTicketId := 3, nextTxId := 3, nextWaitlistId := 1 }

/-- C9 trace: user 2 joins (fast path: reserved ticket 3, pending
transaction 3); pending-return ticket 1 is deleted; user 2 joins again
(normal entry 1); user 4 self-returns ticket 2, which claims user 2's
entry (expiry 1900). -/
def dbC9a : DB := (joinWaitlist dbC9 2 100 100).1
def dbC9b : DB := (deleteTicket dbC9a 1).1
def dbC9c : DB := (joinWaitlist dbC9b 2 100 100).1
def dbC9d : DB := (selfRefund dbC9c 2 100).1

/-- Start state of the C10 trace: sold-out future event 100; user 2
holds a live claimed offer (entry 1, reserved ticket 1, pending
transaction 1, expiry 1800); user 4 holds active ticket 2. -/
def dbC10 : DB :=
  { users := [2, 3, 4]
    events := [⟨100, 3, 2, 2, 1000000, none⟩]
    ticketTypes := [⟨10, 100, 20, 2, 2⟩]
    tickets := [⟨1, 1, 10, 100, 2, .reserved, 0⟩,
                ⟨2, 2, 10, 100, 4, .active, 0⟩]
    transactions := [⟨1, 2, 20, .pending, .waitlist⟩,
                     ⟨2, 4, 20, .completed, .card⟩]
    waitlist := [⟨1, 2, 100, 0, some 0, some 1800⟩]
    nextTicketId := 3, nextTxId := 3, nextWaitlistId := 2 }

/-- C10 trace: user 2 leaves the waitlist while claimed; rejoins
(normal entry 2); user 4 self-returns ticket 2, which claims the new
entry (expiry 1900). -/
def dbC10a : DB := (leaveWaitlist dbC10 1).1
def dbC10b : DB := (joinWaitlist dbC10a 2 100 100).1
def dbC10c : DB := (selfRefund dbC10b 2 100).1

/-! ## General lemmas about the Offer Engine -/

theorem assign_ticketTypes_eq (db : DB) (e t now : Nat) :
    (assignTicketToWaitlist db e t now).1.ticketTypes = db.ticketTypes := by
  unfold assignTicketToWaitlist
  split <;> rfl

theorem assign_events_eq (db : DB) (e t now : Nat) :
    (assignTicketToWaitlist db e t now).1.events = db.events := by
  unfold assignTicketToWaitlist
  split <;> rfl

theorem assign_users_eq (db : DB) (e t now : Nat) :
    (assignTicketToWaitlist db e t now).1.users = db.users := by
  unfold assignTicketToWaitlist
  split <;> rfl

/-- With no unclaimed entry for the event, the engine is a no-op
returning `assigned:false`. -/
theorem assign_no_unclaimed (db : DB) (e t now : Nat)
    (h : ∀ w ∈ db.waitlist, ¬(w.event_id = e ∧ w.offered_at = none)) :
    assignTicketToWaitlist db e t now = (db, ⟨false, none, none⟩) := by
  unfold assignTicketToWaitlist
  have hnil : db.waitlist.filter
      (fun w => decide (w.event_id = e ∧ w.offered_at = none)) = [] := by
    rw [List.filter_eq_nil_iff]
    intro w hw
    simpa using h w hw
  rw [hnil]
  rfl

/-- If the engine reports no assignment, the store is unchanged. -/
theorem assign_not_assigned_eq (db : DB) (e t now : Nat)
    (h : (assignTicketToWaitlist db e t now).2.assigned = false) :
    (assignTicketToWaitlist db e t now).1 = db := by
  unfold assignTicketToWaitlist at *
  split at h
  · rfl
  · simp at h

/-- The engine never deletes waitlist rows and preserves each row's id,
user and event. -/
theorem assign_waitlist_preserved (db : DB) (e t now : Nat) {x : WaitlistEntry}
    (hx : x ∈ db.waitlist) :
    ∃ x' ∈ (assignTicketToWaitlist db e t now).1.waitlist,
      x'.id = x.id ∧ x'.user_id = x.user_id ∧ x'.event_id = x.event_id := by
  unfold assignTicketToWaitlist
  split
  · exact ⟨x, hx, rfl, rfl, rfl⟩
  · rename_i w hw
    refine ⟨if x.id = w.id then claimStamp now x else x, ?_, ?_⟩
    · simpa using List.mem_map_of_mem _ hx
    · split <;> simp [claimStamp]

/-! ## Claim C8 -/

/-- C8: every invocation of `assignTicketToWaitlist` leaves the
ticket-type and event tables (hence all sold counters) unchanged, and
when no unclaimed waitlist entry exists for the event it returns
`assigned:false` having changed nothing at all. -/
theorem assign_frame_and_no_entry_noop (db : DB) (e t now : Nat) :
    (assignTicketToWaitlist db e t now).1.ticketTypes = db.ticketTypes ∧
    (assignTicketToWaitlist db e t now).1.events = db.events ∧
    ((∀ w ∈ db.waitlist, ¬(w.event_id = e ∧ w.offered_at = none)) →
      (assignTicketToWaitlist db e t now).2.assigned = false ∧
      (assignTicketToWaitlist db e t now).1 = db) ∧
    ((assignTicketToWaitlist db e t now).2.assigned = false →
      (assignTicketToWaitlist db e t now).1 = db) := by
  refine ⟨assign_ticketTypes_eq db e t now, assign_events_eq db e t now, ?_, ?_⟩
  · intro h
    rw [assign_no_unclaimed db e t now h]
    exact ⟨rfl, rfl⟩
  · exact assign_not_assigned_eq db e t now

/-- C8 witness: on a store with an empty waitlist the engine reports no
assignment and changes nothing. -/
theorem assign_frame_and_no_entry_noop_witness :
    (assignTicketToWaitlist dbC8 100 10 0).2.assigned = false ∧
    (assignTicketToWaitlist dbC8 100 10 0).1 = dbC8 :=
  (assign_frame_and_no_entry_noop dbC8 100 10 0).2.2.1 (by decide)

/-! ## Claim C3 -/

theorem length_filter_split (l : List α) (p q : α → Bool) :
    (l.filter p).length =
      (l.filter (fun a => p a && q a)).length +
      (l.filter (fun a => p a && !q a)).length := by
  induction l with
  | nil => rfl
  | cons a l ih =>
    by_cases hp : p a <;> by_cases hq : q a <;>
      simp [List.filter_cons, hp, hq, ih] <;> omega

/-- C3 counterexample: on a store whose only ticket row of type 10 is
`refunded`, the recount sets the type's sold count to 1, whereas the
number of the type's rows in non-terminal (non-refunded) states is 0. -/
theorem recount_counts_refunded_tickets :
    ((recountTicketType dbC3 10).ticketTypes.find?
        (fun x => decide (x.id = 10))).map (·.tickets_sold) = some 1 ∧
    ((dbC3.tickets.filter (fun t =>
        decide (t.ticket_type_id = 10 ∧ ¬(t.status = .refunded)))).length : Int) = 0 ∧
    (1 : Int) ≠ 0 := by
  refine ⟨by decide, by decide, by decide⟩

/-- C3 (amended): the recount sets the type's sold count to the number
of ALL of that type's ticket rows, regardless of status; the count
splits as (non-refunded rows) + (refunded rows), i.e. refunded tickets
are included, not excluded. -/
theorem recount_sets_sold_to_all_rows_count (db : DB) (id : Nat)
    (tt : TicketType)
    (h : db.ticketTypes.find? (fun x => decide (x.id = id)) = some tt) :
    ((recountTicketType db id).ticketTypes.find?
        (fun x => decide (x.id = id))).map (·.tickets_sold) =
      some ((db.tickets.filter (fun t => decide (t.ticket_type_id = id))).length : Int) ∧
    (db.tickets.filter (fun t => decide (t.ticket_type_id = id))).length =
      (db.tickets.filter (fun t =>
        decide (t.ticket_type_id = id ∧ ¬(t.status = .refunded)))).length +
      (db.tickets.filter (fun t =>
        decide (t.ticket_type_id = id ∧ t.status = .refunded))).length := by
  constructor
  · have hid : tt.id = id := by
      have := List.find?_some h
      simpa using this
    unfold recountTicketType
    rw [List.find?_map]
    have hp : (fun x => decide (x.id = id)) ∘
        (fun (x : TicketType) =>
          if x.id = id then
            { x with tickets_sold :=
                ((db.tickets.filter (fun t => decide (t.ticket_type_id = id))).length : Int) }
          else x) = (fun x => decide (x.id = id)) := by
      funext x
      by_cases hx : x.id = id <;> simp [hx]
    rw [hp, h]
    simp [hid]
  · have : ∀ t : Ticket,
        decide (t.ticket_type_id = id ∧ ¬(t.status = .refunded)) =
          (decide (t.ticket_type_id = id) && !decide (t.status = .refunded)) := by
      intro t
      by_cases h1 : t.ticket_type_id = id <;> by_cases h2 : t.status = .refunded <;>
        simp [h1, h2]
    have that : ∀ t : Ticket,
        decide (t.ticket_type_id = id ∧ t.status = .refunded) =
          (decide (t.ticket_type_id = id) && decide (t.status = .refunded)) := by
      intro t
      by_cases h1 : t.ticket_type_id = id <;> by_cases h2 : t.status = .refunded <;>
        simp [h1, h2]
    simp only [this, that]
    rw [Nat.add_comm]
    have := length_filter_split db.tickets
      (fun t => decide (t.ticket_type_id = id))
      (fun t => decide (t.status = .refunded))
    omega

/-- C3 amended-claim witness: on `dbC3` the recount writes 1 = 0 + 1
(zero non-refunded rows plus one refunded row). -/
theorem recount_sets_sold_to_all_rows_count_witness :
    ((recountTicketType dbC3 10).ticketTypes.find?
        (fun x => decide (x.id = 10))).map (·.tickets_sold) =
      some ((dbC3.tickets.filter (fun t => decide (t.ticket_type_id = 10))).length : Int) ∧
    (dbC3.tickets.filter (fun t => decide (t.ticket_type_id = 10))).length =
      (dbC3.tickets.filter (fun t =>
        decide (t.ticket_type_id = 10 ∧ ¬(t.status = .refunded)))).length +
      (dbC3.tickets.filter (fun t =>
        decide (t.ticket_type_id = 10 ∧ t.status = .refunded))).length :=
  recount_sets_sold_to_all_rows_count dbC3 10 ⟨10, 100, 50, 5, 1⟩ (by decide)

/-! ## Claim C1 -/

/-- C1 counterexample: a store satisfying the aggregate invariant on
which the recount operation breaks it (the recount updates the
ticket-type sold counter but never the parent event's aggregate). -/
theorem recount_violates_aggregate_invariant :
    aggInv dbC1 ∧ ¬ aggInv (recountTicketType dbC1 10) := by
  constructor
  · decide
  · decide

theorem sumSold_cons (x : TicketType) (xs : List TicketType) (eid : Nat) :
    sumSold (x :: xs) eid =
      (if x.event_id = eid then x.tickets_sold else 0) + sumSold xs eid := by
  by_cases h : x.event_id = eid <;> simp [sumSold, List.filter_cons, h]

theorem sumTotal_cons (x : TicketType) (xs : List TicketType) (eid : Nat) :
    sumTotal (x :: xs) eid =
      (if x.event_id = eid then x.total_tickets else 0) + sumTotal xs eid := by
  by_cases h : x.event_id = eid <;> simp [sumTotal, List.filter_cons, h]

theorem sumSold_map_congr (l : List TicketType) (f : TicketType → TicketType)
    (eid : Nat) (hev : ∀ tt ∈ l, (f tt).event_id = tt.event_id)
    (hsold : ∀ tt ∈ l, tt.event_id = eid → (f tt).tickets_sold = tt.tickets_sold) :
    sumSold (l.map f) eid = sumSold l eid := by
  induction l with
  | nil => rfl
  | cons a l ih =>
    have hev' := hev a (by simp)
    have ihr := ih (fun tt h => hev tt (by simp [h]))
      (fun tt h he => hsold tt (by simp [h]) he)
    rw [List.map_cons, sumSold_cons, sumSold_cons, hev', ihr]
    by_cases ha : a.event_id = eid
    · rw [if_pos ha, if_pos ha, hsold a (by simp) ha]
    · rw [if_neg ha, if_neg ha]

theorem sumTotal_map_congr (l : List TicketType) (f : TicketType → TicketType)
    (eid : Nat) (hev : ∀ tt ∈ l, (f tt).event_id = tt.event_id)
    (htot : ∀ tt ∈ l, tt.event_id = eid → (f tt).total_tickets = tt.total_tickets) :
    sumTotal (l.map f) eid = sumTotal l eid := by
  induction l with
  | nil => rfl
  | cons a l ih =>
    have hev' := hev a (by simp)
    have ihr := ih (fun tt h => hev tt (by simp [h]))
      (fun tt h he => htot tt (by simp [h]) he)
    rw [List.map_cons, sumTotal_cons, sumTotal_cons, hev', ihr]
    by_cases ha : a.event_id = eid
    · rw [if_pos ha, if_pos ha, htot a (by simp) ha]
    · rw [if_neg ha, if_neg ha]

/-- Decrementing the sold counter of the (unique) type `ttid`, which
belongs to event `eid`, lowers that event's type-sold sum by one. -/
theorem sumSold_map_dec (l : List TicketType) (ttid eid : Nat)
    (hnd : (l.map (·.id)).Nodup) (tt0 : TicketType) (h0 : tt0 ∈ l)
    (hid : tt0.id = ttid) (hev : tt0.event_id = eid) :
    sumSold (l.map (fun tt =>
      if tt.id = ttid then { tt with tickets_sold := tt.tickets_sold - 1 }
      else tt)) eid = sumSold l eid - 1 := by
  induction l with
  | nil => cases h0
  | cons a l ih =>
    rw [List.map_cons, List.nodup_cons] at hnd
    rw [List.map_cons, sumSold_cons, sumSold_cons]
    rcases List.mem_cons.mp h0 with h0a | h0l
    · subst h0a
      have htail : (l.map (fun tt =>
          if tt.id = ttid then { tt with tickets_sold := tt.tickets_sold - 1 }
          else tt)) = l := by
        have : l.map (fun tt =>
            if tt.id = ttid then { tt with tickets_sold := tt.tickets_sold - 1 }
            else tt) = l.map id := by
          apply List.map_congr_left
          intro tt htt
          have hne : ¬(tt.id = ttid) := by
            intro he
            exact hnd.1 (by
              rw [hid, ← he]
              exact List.mem_map_of_mem (·.id) htt)
          simp [hne]
        rw [this, List.map_id]
      rw [htail, if_pos hid]
      have he2 : ({ tt0 with tickets_sold := tt0.tickets_sold - 1 } :
          TicketType).event_id = eid := hev
      rw [if_pos he2, if_pos hev]
      show tt0.tickets_sold - 1 + sumSold l eid =
        tt0.tickets_sold + sumSold l eid - 1
      omega
    · have hane : ¬(a.id = ttid) := by
        intro he
        exact hnd.1 (by
          rw [he, ← hid]
          exact List.mem_map_of_mem (·.id) h0l)
      rw [if_neg hane, ih hnd.2 h0l]
      omega

/-- The aggregate invariant only depends on the event and ticket-type
tables. -/
theorem aggInv_congr (db db' : DB) (he : db'.events = db.events)
    (ht : db'.ticketTypes = db.ticketTypes) (h : aggInv db) : aggInv db' := by
  intro e hmem
  have := h e (he ▸ hmem)
  unfold eventAggInv at this ⊢
  rw [ht]
  exact this

/-- The purchase success path establishes the aggregate invariant for
the purchased event and preserves it for all others, provided the
updated ticket type belongs to the purchased event. -/
theorem purchaseApply_aggInv (db : DB) (u e ttid q : Nat) (pm : PayMethod)
    (price : Rat) (now : Nat) (hinv : aggInv db)
    (hty : ∀ tt ∈ db.ticketTypes, tt.id = ttid → tt.event_id = e) :
    aggInv (purchaseApply db u e ttid q pm price now).1 := by
  have hTT : (purchaseApply db u e ttid q pm price now).1.ticketTypes =
      db.ticketTypes.map (fun x =>
        if x.id = ttid then
          { x with tickets_sold := x.tickets_sold + (q : Int) }
        else x) := rfl
  have hEV : (purchaseApply db u e ttid q pm price now).1.events =
      db.events.map (fun x =>
        if x.id = e then
          { x with
            tickets_sold := sumSold (db.ticketTypes.map (fun x =>
              if x.id = ttid then
                { x with tickets_sold := x.tickets_sold + (q : Int) }
              else x)) e,
            total_tickets := sumTotal (db.ticketTypes.map (fun x =>
              if x.id = ttid then
                { x with tickets_sold := x.tickets_sold + (q : Int) }
              else x)) e }
        else x) := rfl
  intro ev hmem
  rw [hEV] at hmem
  obtain ⟨e0, he0, rfl⟩ := List.mem_map.mp hmem
  unfold eventAggInv
  rw [hTT]
  by_cases h : e0.id = e
  · rw [if_pos h]
    exact ⟨by simp [h], by simp [h]⟩
  · rw [if_neg h]
    have hS : sumSold (db.ticketTypes.map (fun x =>
        if x.id = ttid then
          { x with tickets_sold := x.tickets_sold + (q : Int) }
        else x)) e0.id = sumSold db.ticketTypes e0.id := by
      apply sumSold_map_congr
      · intro tt _
        by_cases hx : tt.id = ttid <;> simp [hx]
      · intro tt htt hev
        by_cases hx : tt.id = ttid
        · exact absurd (hev.symm.trans (hty tt htt hx)) h
        · simp [hx]
    have hT : sumTotal (db.ticketTypes.map (fun x =>
        if x.id = ttid then
          { x with tickets_sold := x.tickets_sold + (q : Int) }
        else x)) e0.id = sumTotal db.ticketTypes e0.id := by
      apply sumTotal_map_congr
      · intro tt _
        by_cases hx : tt.id = ttid <;> simp [hx]
      · intro tt _ _
        by_cases hx : tt.id = ttid <;> simp [hx]
    rw [hS, hT]
    exact hinv e0 he0

/-- The four organizer-refund updates preserve the aggregate invariant
(the event-level decrement matches the type-level decrement, given the
schema facts `aggWF`). -/
theorem orgRefundUpdates_aggInv (db : DB) (t : Ticket) (hWF : aggWF db)
    (hinv : aggInv db) (ht : t ∈ db.tickets) :
    aggInv (orgRefundUpdates db t) := by
  obtain ⟨tt0, htt0, hid0, hev0⟩ := hWF.2 t ht
  have hTT : (orgRefundUpdates db t).ticketTypes =
      db.ticketTypes.map (fun tt =>
        if tt.id = t.ticket_type_id then
          { tt with tickets_sold := tt.tickets_sold - 1 }
        else tt) := rfl
  have hEV : (orgRefundUpdates db t).events =
      db.events.map (fun e =>
        if e.id = t.event_id then { e with tickets_sold := e.tickets_sold - 1 }
        else e) := rfl
  intro ev hmem
  rw [hEV] at hmem
  obtain ⟨e0, he0, rfl⟩ := List.mem_map.mp hmem
  unfold eventAggInv
  rw [hTT]
  have hbase := hinv e0 he0
  have hT : sumTotal (db.ticketTypes.map (fun tt =>
      if tt.id = t.ticket_type_id then
        { tt with tickets_sold := tt.tickets_sold - 1 }
      else tt)) e0.id = sumTotal db.ticketTypes e0.id := by
    apply sumTotal_map_congr
    · intro tt _
      by_cases hx : tt.id = t.ticket_type_id <;> simp [hx]
    · intro tt _ _
      by_cases hx : tt.id = t.ticket_type_id <;> simp [hx]
  by_cases h : e0.id = t.event_id
  · have hS : sumSold (db.ticketTypes.map (fun tt =>
        if tt.id = t.ticket_type_id then
          { tt with tickets_sold := tt.tickets_sold - 1 }
        else tt)) e0.id = sumSold db.ticketTypes e0.id - 1 :=
      sumSold_map_dec db.ticketTypes t.ticket_type_id e0.id hWF.1 tt0 htt0 hid0
        (hev0.trans h.symm)
    rw [if_pos h]
    constructor
    · show e0.tickets_sold - 1 = sumSold _ e0.id
      rw [hS, hbase.1]
    · show e0.total_tickets = sumTotal _ e0.id
      rw [hT]
      exact hbase.2
  · have hS : sumSold (db.ticketTypes.map (fun tt =>
        if tt.id = t.ticket_type_id then
          { tt with tickets_sold := tt.tickets_sold - 1 }
        else tt)) e0.id = sumSold db.ticketTypes e0.id := by
      apply sumSold_map_congr
      · intro tt _
        by_cases hx : tt.id = t.ticket_type_id <;> simp [hx]
      · intro tt htt hev
        by_cases hx : tt.id = t.ticket_type_id
        · have : tt = tt0 :=
            List.inj_on_of_nodup_map hWF.1 htt htt0 (by rw [hx, hid0])
          exact absurd (hev.symm.trans (this ▸ hev0 : tt.event_id = t.event_id)) h
        · simp [hx]
    rw [if_neg h, hS, hT]
    exact hbase

theorem organizerRefund_aggInv (db : DB) (tid cid now : Nat) (hWF : aggWF db)
    (hinv : aggInv db) : aggInv (organizerRefund db tid cid now).1 := by
  unfold organizerRefund
  split
  · exact hinv
  rename_i t hft
  split
  · exact hinv
  split
  · exact hinv
  split
  · exact hinv
  have hbox := orgRefundUpdates_aggInv db t hWF hinv
    (List.mem_of_find?_eq_some hft)
  split
  · show aggInv (assignTicketToWaitlist (orgRefundUpdates db t)
      t.event_id t.ticket_type_id now).1
    exact aggInv_congr _ _ (assign_events_eq _ _ _ _)
      (assign_ticketTypes_eq _ _ _ _) hbox
  · exact hbox

theorem deleteTicket_aggInv (db : DB) (tid : Nat) (hinv : aggInv db) :
    aggInv (deleteTicket db tid).1 := by
  unfold deleteTicket
  cases db.tickets.find? (fun t => decide (t.id = tid)) with
  | none => exact hinv
  | some t => exact aggInv_congr db _ rfl rfl hinv

theorem syncAllCounts_aggInv (db : DB) : aggInv (syncAllCounts db) := by
  intro ev hmem
  have hmem' : ev ∈ db.events.map (fun e =>
      { e with
        total_tickets := sumTotal (db.ticketTypes.map (fun tt =>
          { tt with tickets_sold :=
              ((db.tickets.filter (fun t =>
                decide (t.ticket_type_id = tt.id))).length : Int) })) e.id,
        tickets_sold := sumSold (db.ticketTypes.map (fun tt =>
          { tt with tickets_sold :=
              ((db.tickets.filter (fun t =>
                decide (t.ticket_type_id = tt.id))).length : Int) })) e.id }) := hmem
  obtain ⟨e0, he0, rfl⟩ := List.mem_map.mp hmem'
  exact ⟨rfl, rfl⟩

theorem purchaseTickets_aggInv (db : DB) (uid eid ttid q : Nat)
    (pm : PayMethod) (now : Nat) (hinv : aggInv db)
    (hty : ∀ tt ∈ db.ticketTypes, tt.id = ttid → tt.event_id = eid) :
    aggInv (purchaseTickets db uid eid ttid q pm now).1 := by
  unfold purchaseTickets
  repeat' split
  any_goals exact hinv
  rename_i tt _ _
  exact purchaseApply_aggInv db uid eid ttid q pm tt.price now hinv hty

/-- C1 (amended): the aggregate invariant (event sold/total equal the
sums over its ticket types) is preserved by ticket purchase (when the
purchased type belongs to the purchased event), by organizer refund
(under the `aggWF` schema facts), and by ticket deletion, and is
established for every event by sync-all; the recount operation is the
exception — it updates only the ticket-type counter and can break the
event-level sold equality (see the counterexample). -/
theorem aggregate_invariant_after_core_mutations :
    (∀ (db : DB) (uid eid ttid q : Nat) (pm : PayMethod) (now : Nat),
      aggInv db → (∀ tt ∈ db.ticketTypes, tt.id = ttid → tt.event_id = eid) →
      aggInv (purchaseTickets db uid eid ttid q pm now).1) ∧
    (∀ (db : DB) (tid cid now : Nat), aggWF db → aggInv db →
      aggInv (organizerRefund db tid cid now).1) ∧
    (∀ (db : DB) (tid : Nat), aggInv db → aggInv (deleteTicket db tid).1) ∧
    (∀ db : DB, aggInv (syncAllCounts db)) :=
  ⟨fun db uid eid ttid q pm now hinv hty =>
      purchaseTickets_aggInv db uid eid ttid q pm now hinv hty,
   fun db tid cid now hWF hinv => organizerRefund_aggInv db tid cid now hWF hinv,
   fun db tid hinv => deleteTicket_aggInv db tid hinv,
   syncAllCounts_aggInv⟩

/-- C1 witness: the amended invariant statement applied to concrete
stores — a successful purchase, a successful organizer refund, a ticket
deletion and a sync-all. -/
theorem aggregate_invariant_after_core_mutations_witness :
    aggInv (purchaseTickets dbC6 1 200 20 2 .card 50).1 ∧
    aggInv (organizerRefund dbC5 1 9 50).1 ∧
    aggInv (deleteTicket dbC1 1).1 ∧
    aggInv (syncAllCounts dbC3) :=
  ⟨aggregate_invariant_after_core_mutations.1 dbC6 1 200 20 2 .card 50
      (by decide) (by decide),
   aggregate_invariant_after_core_mutations.2.1 dbC5 1 9 50 (by decide) (by decide),
   aggregate_invariant_after_core_mutations.2.2.1 dbC1 1 (by decide),
   aggregate_invariant_after_core_mutations.2.2.2 dbC3⟩

/-! ## Lookup lemmas through updates, appends and the Offer Engine -/

theorem find?_map_of_pred (l : List α) (f : α → α) (p : α → Bool)
    (hp : ∀ a, p (f a) = p a) :
    (l.map f).find? p = (l.find? p).map f := by
  have hcomp : (p ∘ f) = p := funext (fun a => hp a)
  rw [List.find?_map, hcomp]

theorem find?_append_some {l₁ l₂ : List α} {p : α → Bool} {a : α}
    (h : l₁.find? p = some a) : (l₁ ++ l₂).find? p = some a := by
  rw [List.find?_append, h]
  rfl

theorem find?_filter_none {l : List α} {p q : α → Bool}
    (h : l.find? p = none) : (l.filter q).find? p = none := by
  rw [List.find?_eq_none] at h ⊢
  intro a ha
  exact h a (List.mem_filter.mp ha).1

/-- The Offer Engine preserves any successful ticket lookup (it only
appends a fresh ticket). -/
theorem assign_find?_ticket (db : DB) (e tt now : Nat) {p : Ticket → Bool}
    {a : Ticket} (h : db.tickets.find? p = some a) :
    (assignTicketToWaitlist db e tt now).1.tickets.find? p = some a := by
  unfold assignTicketToWaitlist
  split
  · exact h
  · exact find?_append_some h

/-- The Offer Engine preserves any successful transaction lookup. -/
theorem assign_find?_tx (db : DB) (e tt now : Nat) {p : Transaction → Bool}
    {a : Transaction} (h : db.transactions.find? p = some a) :
    (assignTicketToWaitlist db e tt now).1.transactions.find? p = some a := by
  unfold assignTicketToWaitlist
  split
  · exact h
  · exact find?_append_some h

/-! ## Claim C5 -/

/-- C5: a successful organizer refund (ticket found, caller is the
event's organizer, ticket `active`) marks the ticket `refunded`,
decrements the event's and the ticket type's sold counters by one,
marks the original transaction `refunded`, and invokes the Offer Engine
if and only if the event was sold out (sold ≥ total) immediately before
the refund. -/
theorem organizer_refund_effects (db : DB) (tid cid now : Nat)
    (t : Ticket) (ev : Event) (tt : TicketType) (tx : Transaction)
    (hft : db.tickets.find? (fun x => decide (x.id = tid)) = some t)
    (hfe : db.events.find? (fun e => decide (e.id = t.event_id)) = some ev)
    (hftt : db.ticketTypes.find? (fun x => decide (x.id = t.ticket_type_id)) = some tt)
    (hftx : db.transactions.find? (fun x => decide (x.id = t.transaction_id)) = some tx)
    (horg : ev.organizer_id = cid) (hact : t.status = .active) :
    ((organizerRefund db tid cid now).1.tickets.find?
        (fun x => decide (x.id = tid))).map (·.status) = some .refunded ∧
    ((organizerRefund db tid cid now).1.events.find?
        (fun e => decide (e.id = t.event_id))).map (·.tickets_sold) =
      some (ev.tickets_sold - 1) ∧
    ((organizerRefund db tid cid now).1.ticketTypes.find?
        (fun x => decide (x.id = t.ticket_type_id))).map (·.tickets_sold) =
      some (tt.tickets_sold - 1) ∧
    ((organizerRefund db tid cid now).1.transactions.find?
        (fun x => decide (x.id = t.transaction_id))).map (·.status) =
      some .refunded ∧
    (ev.tickets_sold ≥ ev.total_tickets →
      organizerRefund db tid cid now =
        ((assignTicketToWaitlist (orgRefundUpdates db t)
            t.event_id t.ticket_type_id now).1,
         .ok (assignTicketToWaitlist (orgRefundUpdates db t)
            t.event_id t.ticket_type_id now).2.assigned)) ∧
    (¬(ev.tickets_sold ≥ ev.total_tickets) →
      organizerRefund db tid cid now = (orgRefundUpdates db t, .ok false)) := by
  have htid : t.id = tid := by simpa using List.find?_some hft
  have hevid : ev.id = t.event_id := by simpa using List.find?_some hfe
  have httid : tt.id = t.ticket_type_id := by simpa using List.find?_some hftt
  have htxid : tx.id = t.transaction_id := by simpa using List.find?_some hftx
  have hres : organizerRefund db tid cid now =
      (if ev.tickets_sold ≥ ev.total_tickets then
        ((assignTicketToWaitlist (orgRefundUpdates db t)
            t.event_id t.ticket_type_id now).1,
         .ok (assignTicketToWaitlist (orgRefundUpdates db t)
            t.event_id t.ticket_type_id now).2.assigned)
      else (orgRefundUpdates db t, .ok false)) := by
    simp only [organizerRefund, hft, hfe]
    rw [if_neg (not_not_intro horg), if_neg (not_not_intro hact)]
  have hU1 : (orgRefundUpdates db t).tickets.find?
      (fun x => decide (x.id = tid)) = some { t with status := .refunded } := by
    have : (orgRefundUpdates db t).tickets =
        db.tickets.map (fun x =>
          if x.id = t.id then { x with status := .refunded } else x) := rfl
    rw [this, find?_map_of_pred _ _ _ (by
      intro a
      by_cases hx : a.id = t.id <;> simp [hx]), hft]
    simp
  have hU2 : (orgRefundUpdates db t).events.find?
      (fun e => decide (e.id = t.event_id)) =
      some { ev with tickets_sold := ev.tickets_sold - 1 } := by
    have : (orgRefundUpdates db t).events =
        db.events.map (fun e =>
          if e.id = t.event_id then { e with tickets_sold := e.tickets_sold - 1 }
          else e) := rfl
    rw [this, find?_map_of_pred _ _ _ (by
      intro a
      by_cases hx : a.id = t.event_id <;> simp [hx]), hfe]
    simp [hevid]
  have hU3 : (orgRefundUpdates db t).ticketTypes.find?
      (fun x => decide (x.id = t.ticket_type_id)) =
      some { tt with tickets_sold := tt.tickets_sold - 1 } := by
    have : (orgRefundUpdates db t).ticketTypes =
        db.ticketTypes.map (fun x =>
          if x.id = t.ticket_type_id then
            { x with tickets_sold := x.tickets_sold - 1 }
          else x) := rfl
    rw [this, find?_map_of_pred _ _ _ (by
      intro a
      by_cases hx : a.id = t.ticket_type_id <;> simp [hx]), hftt]
    simp [httid]
  have hU4 : (orgRefundUpdates db t).transactions.find?
      (fun x => decide (x.id = t.transaction_id)) =
      some { tx with status := .refunded } := by
    have : (orgRefundUpdates db t).transactions =
        db.transactions.map (fun x =>
          if x.id = t.transaction_id then { x with status := .refunded }
          else x) := rfl
    rw [this, find?_map_of_pred _ _ _ (by
      intro a
      by_cases hx : a.id = t.transaction_id <;> simp [hx]), hftx]
    simp [htxid]
  rw [hres]
  by_cases hsold : ev.tickets_sold ≥ ev.total_tickets
  · rw [if_pos hsold]
    refine ⟨?_, ?_, ?_, ?_, fun _ => rfl, fun hc => absurd hsold hc⟩
    · rw [assign_find?_ticket _ _ _ _ hU1]
      rfl
    · rw [assign_events_eq, hU2]
      rfl
    · rw [assign_ticketTypes_eq, hU3]
      rfl
    · rw [assign_find?_tx _ _ _ _ hU4]
      rfl
  · rw [if_neg hsold]
    refine ⟨?_, ?_, ?_, ?_, fun hc => absurd hc hsold, fun _ => rfl⟩
    · rw [hU1]
      rfl
    · rw [hU2]
      rfl
    · rw [hU3]
      rfl
    · rw [hU4]
      rfl

/-- C5 witness: a concrete sold-out organizer refund. -/
theorem organizer_refund_effects_witness :
    ((organizerRefund dbC5 1 9 50).1.tickets.find?
        (fun x => decide (x.id = 1))).map (·.status) = some .refunded ∧
    ((organizerRefund dbC5 1 9 50).1.events.find?
        (fun e => decide (e.id = 100))).map (·.tickets_sold) = some 1 ∧
    ((organizerRefund dbC5 1 9 50).1.ticketTypes.find?
        (fun x => decide (x.id = 10))).map (·.tickets_sold) = some 1 ∧
    ((organizerRefund dbC5 1 9 50).1.transactions.find?
        (fun x => decide (x.id = 1))).map (·.status) = some .refunded := by
  have h := organizer_refund_effects dbC5 1 9 50
    ⟨1, 1, 10, 100, 1, .active, 0⟩ ⟨100, 9, 2, 2, 10000, none⟩
    ⟨10, 100, 50, 2, 2⟩ ⟨1, 1, 50, .completed, .card⟩
    (by decide) (by decide) (by decide) (by decide) (by decide) (by decide)
  exact ⟨h.1, h.2.1, h.2.2.1, h.2.2.2.1⟩

/-! ## Claim C6 -/

/-- C6: self-service return is rejected with the store unchanged when
the ticket is not `active` or the event (counters) is not sold out, and
succeeds exactly when the ticket is `active` and sold ≥ total, in which
case the ticket becomes `pending_return` and the Offer Engine is
invoked on the resulting store. -/
theorem self_refund_eligibility (db : DB) (tid now : Nat)
    (t : Ticket) (ev : Event)
    (hft : db.tickets.find? (fun x => decide (x.id = tid)) = some t)
    (hfe : db.events.find? (fun e => decide (e.id = t.event_id)) = some ev) :
    (¬(t.status = .active) → selfRefund db tid now = (db, .invalidState)) ∧
    (t.status = .active → ev.tickets_sold < ev.total_tickets →
      selfRefund db tid now = (db, .notSoldOut)) ∧
    (t.status = .active → ¬(ev.tickets_sold < ev.total_tickets) →
      selfRefund db tid now =
        ((assignTicketToWaitlist (updateTicketStatus db tid .pending_return)
            t.event_id t.ticket_type_id now).1,
         .ok (assignTicketToWaitlist (updateTicketStatus db tid .pending_return)
            t.event_id t.ticket_type_id now).2.assigned) ∧
      ((selfRefund db tid now).1.tickets.find?
          (fun x => decide (x.id = tid))).map (·.status) = some .pending_return) := by
  have htid : t.id = tid := by simpa using List.find?_some hft
  refine ⟨?_, ?_, ?_⟩
  · intro hact
    simp only [selfRefund, hft, hfe]
    rw [if_pos (by simpa using hact)]
  · intro hact hcap
    simp only [selfRefund, hft, hfe]
    rw [if_neg (not_not_intro hact), if_pos hcap]
  · intro hact hcap
    have hres : selfRefund db tid now =
        ((assignTicketToWaitlist (updateTicketStatus db tid .pending_return)
            t.event_id t.ticket_type_id now).1,
         .ok (assignTicketToWaitlist (updateTicketStatus db tid .pending_return)
            t.event_id t.ticket_type_id now).2.assigned) := by
      simp only [selfRefund, hft, hfe]
      rw [if_neg (not_not_intro hact), if_neg hcap]
    refine ⟨hres, ?_⟩
    rw [hres]
    have hU : (updateTicketStatus db tid .pending_return).tickets.find?
        (fun x => decide (x.id = tid)) =
        some { t with status := .pending_return } := by
      have : (updateTicketStatus db tid .pending_return).tickets =
          db.tickets.map (fun x =>
            if x.id = tid then { x with status := .pending_return } else x) := rfl
      rw [this, find?_map_of_pred _ _ _ (by
        intro a
        by_cases hx : a.id = tid <;> simp [hx]), hft]
      simp [htid]
    rw [assign_find?_ticket _ _ _ _ hU]
    rfl

/-- C6 witness: on `dbC6`, returning ticket 2 (event 200 not sold out)
is rejected with no changes, and returning ticket 1 (event 100 sold
out, ticket active) succeeds and leaves the ticket `pending_return`. -/
theorem self_refund_eligibility_witness :
    selfRefund dbC6 2 50 = (dbC6, .notSoldOut) ∧
    ((selfRefund dbC6 1 50).1.tickets.find?
        (fun x => decide (x.id = 1))).map (·.status) = some .pending_return := by
  constructor
  · exact (self_refund_eligibility dbC6 2 50 ⟨2, 2, 20, 200, 1, .active, 0⟩
      ⟨200, 9, 5, 1, 10000, none⟩ (by decide) (by decide)).2.1
      (by decide) (by decide)
  · exact ((self_refund_eligibility dbC6 1 50 ⟨1, 1, 10, 100, 1, .active, 0⟩
      ⟨100, 9, 1, 1, 10000, none⟩ (by decide) (by decide)).2.2
      (by decide) (by decide)).2

theorem minByKey_mem {key : α → Nat} :
    ∀ {l : List α} {x : α}, minByKey key l = some x → x ∈ l := by
  intro l
  induction l with
  | nil => intro x h; cases h
  | cons a l ih =>
    intro x h
    unfold minByKey at h
    revert h
    cases hm : minByKey key l with
    | none =>
      intro h
      cases h
      exact List.mem_cons_self a l
    | some y =>
      intro h
      dsimp only at h
      by_cases hlt : key y < key a
      · rw [if_pos hlt] at h
        cases h
        exact List.mem_cons_of_mem a (ih hm)
      · rw [if_neg hlt] at h
        cases h
        exact List.mem_cons_self a l

/-! ## Claim C4 -/

/-- C4: a successful accept that displaces a `pending_return` ticket of
the same event/type refunds 98% of that ticket's original transaction
price (2% platform fee) and records a compensating `refunded` /
`waitlist_return` transaction for the displaced owner over the negative
refund amount. -/
theorem accept_refund_is_98_percent (db : DB) (txid now : Nat)
    (txn : Transaction) (tk rt : Ticket) (otx : Transaction)
    (h1 : db.transactions.find? (fun tx =>
        decide (tx.id = txid ∧ tx.status = .pending ∧
                tx.payment_method = .waitlist)) = some txn)
    (h2 : db.tickets.find? (fun x =>
        decide (x.transaction_id = txid ∧ x.status = .reserved)) = some tk)
    (h3 : acceptExpiredCheck db txn.user_id tk.event_id now = false)
    (h4 : pendingReturnOf db tk.event_id tk.ticket_type_id = some rt)
    (h5 : db.transactions.find? (fun x =>
        decide (x.id = rt.transaction_id)) = some otx) :
    (acceptOffer db txid now).2 =
      .ok tk.id (some rt.id) (otx.total_price * (98 / 100))
        (otx.total_price * (2 / 100)) ∧
    (⟨db.nextTxId, rt.user_id, -(otx.total_price * (98 / 100)),
        .refunded, .waitlist_return⟩ : Transaction) ∈
      (acceptOffer db txid now).1.transactions := by
  have h5' : (updateTicketStatus (updateTx db txid .completed) tk.id
        .active).transactions.find? (fun x => decide (x.id = rt.transaction_id)) =
      some (if otx.id = txid then { otx with status := TxStatus.completed }
            else otx) := by
    show (updateTx db txid .completed).transactions.find?
        (fun x => decide (x.id = rt.transaction_id)) = _
    have hmap : (updateTx db txid .completed).transactions =
        db.transactions.map (fun x =>
          if x.id = txid then { x with status := TxStatus.completed } else x) := rfl
    rw [hmap, find?_map_of_pred _ _ _ (by
      intro a
      by_cases hx : a.id = txid <;> simp [hx]), h5]
    rfl
  have htp : (if otx.id = txid then { otx with status := TxStatus.completed }
      else otx).total_price = otx.total_price := by
    by_cases hx : otx.id = txid <;> simp [hx]
  have hring : otx.total_price - otx.total_price * (2 / 100) =
      otx.total_price * (98 / 100) := by ring
  constructor
  · simp only [acceptOffer, h1, h2, h3, Bool.false_eq_true, if_false, h4, h5']
    rw [htp, hring]
  · simp only [acceptOffer, h1, h2, h3, Bool.false_eq_true, if_false, h4, h5']
    rw [htp, hring]
    simp only [List.mem_append, List.mem_singleton]
    exact Or.inr rfl

/-- C4 witness: original price 50.00 yields refund 49.00, platform fee
1.00, and a `-49` `refunded`/`waitlist_return` transaction for the
displaced owner (user 1). -/
theorem accept_refund_is_98_percent_witness :
    (acceptOffer dbC4 3 100).2 =
      .ok 2 (some 1) ((50 : Rat) * (98 / 100)) ((50 : Rat) * (2 / 100)) ∧
    (50 : Rat) * (98 / 100) = 49 ∧ (50 : Rat) * (2 / 100) = 1 ∧
    (⟨4, 1, -((50 : Rat) * (98 / 100)), .refunded, .waitlist_return⟩ :
        Transaction) ∈ (acceptOffer dbC4 3 100).1.transactions := by
  have h := accept_refund_is_98_percent dbC4 3 100
    ⟨3, 2, 50, .pending, .waitlist⟩ ⟨2, 3, 10, 100, 2, .reserved, 5⟩
    ⟨1, 1, 10, 100, 1, .pending_return, 0⟩ ⟨1, 1, 50, .completed, .card⟩
    (by decide) (by decide) (by decide) (by decide) (by decide)
  exact ⟨h.1, by norm_num, by norm_num, h.2⟩

/-! ## Claim C2 -/

/-- C2 counterexample: on `dbC4` at time 2000 (past the 1805 expiry)
the accept fails as expired, but — unlike the sweeper's rollback, which
deletes waitlist entry 5 — the accept handler leaves the stale entry in
place. So the accept rollback is NOT the same as the sweeper's. -/
theorem accept_expired_keeps_stale_waitlist_entry :
    (acceptOffer dbC4 3 2000).2 = .expired ∧
    ((acceptOffer dbC4 3 2000).1.waitlist.find?
        (fun w => decide (w.id = 5))).isSome = true ∧
    ((cleanupExpiredReservations dbC4 2000).1.waitlist.find?
        (fun w => decide (w.id = 5))) = none := by
  refine ⟨by decide, by decide, by decide⟩

/-- C2 (amended): on accept of a pending waitlist transaction whose
claimed entry has passed its expiry, the handler expires the
transaction, deletes the reserved ticket and cascades the offer, then
fails as expired — but the stale waitlist entry itself is NOT deleted
(it survives with its id/user/event). An accept at or before the expiry
instant is not rejected as expired and (with referential integrity)
succeeds. -/
theorem accept_expiry_recheck_behavior (db : DB) (txid now : Nat)
    (txn : Transaction) (tk : Ticket) (w : WaitlistEntry) (o e : Nat)
    (h1 : db.transactions.find? (fun tx =>
        decide (tx.id = txid ∧ tx.status = .pending ∧
                tx.payment_method = .waitlist)) = some txn)
    (h2 : db.tickets.find? (fun x =>
        decide (x.transaction_id = txid ∧ x.status = .reserved)) = some tk)
    (h3 : entryFor db txn.user_id tk.event_id = some w)
    (h4 : w.offered_at = some o)
    (h5 : w.reservation_expires_at = some e) :
    (e < now →
      acceptOffer db txid now =
        ((assignTicketToWaitlist (deleteTicketRow (updateTx db txid .expired)
            tk.id) tk.event_id tk.ticket_type_id now).1, .expired) ∧
      ∃ w' ∈ (acceptOffer db txid now).1.waitlist,
        w'.id = w.id ∧ w'.user_id = w.user_id ∧ w'.event_id = w.event_id) ∧
    (¬(e < now) →
      (∀ t ∈ db.tickets, (db.transactions.find? (fun x =>
          decide (x.id = t.transaction_id))).isSome) →
      ∃ ortid refund fee,
        (acceptOffer db txid now).2 = .ok tk.id ortid refund fee) := by
  constructor
  · intro hlt
    have hexp : acceptExpiredCheck db txn.user_id tk.event_id now = true := by
      unfold acceptExpiredCheck
      rw [h3]
      dsimp only
      rw [h4, h5]
      simpa using hlt
    have hres : acceptOffer db txid now =
        ((assignTicketToWaitlist (deleteTicketRow (updateTx db txid .expired)
            tk.id) tk.event_id tk.ticket_type_id now).1, .expired) := by
      simp only [acceptOffer, h1, h2, hexp, if_true]
    refine ⟨hres, ?_⟩
    rw [hres]
    have hw : w ∈ (deleteTicketRow (updateTx db txid .expired) tk.id).waitlist :=
      List.mem_of_find?_eq_some h3
    exact assign_waitlist_preserved _ _ _ _ hw
  · intro hnlt hri
    have hexp : acceptExpiredCheck db txn.user_id tk.event_id now = false := by
      unfold acceptExpiredCheck
      rw [h3]
      dsimp only
      rw [h4, h5]
      simpa using hnlt
    cases hpr : pendingReturnOf db tk.event_id tk.ticket_type_id with
    | none =>
      refine ⟨none, 0, 0, ?_⟩
      simp only [acceptOffer, h1, h2, hexp, Bool.false_eq_true, if_false, hpr]
    | some rt =>
      have hrtmem : rt ∈ db.tickets := by
        have := minByKey_mem hpr
        exact (List.mem_filter.mp this).1
      obtain ⟨otx, hotx⟩ := Option.isSome_iff_exists.mp (hri rt hrtmem)
      have h5' : (updateTicketStatus (updateTx db txid .completed) tk.id
            .active).transactions.find?
            (fun x => decide (x.id = rt.transaction_id)) =
          some (if otx.id = txid then { otx with status := TxStatus.completed }
                else otx) := by
        show (updateTx db txid .completed).transactions.find?
            (fun x => decide (x.id = rt.transaction_id)) = _
        have hmap : (updateTx db txid .completed).transactions =
            db.transactions.map (fun x =>
              if x.id = txid then { x with status := TxStatus.completed }
              else x) := rfl
        rw [hmap, find?_map_of_pred _ _ _ (by
          intro a
          by_cases hx : a.id = txid <;> simp [hx]), hotx]
        rfl
      refine ⟨some rt.id,
        (if otx.id = txid then { otx with status := TxStatus.completed }
          else otx).total_price -
          (if otx.id = txid then { otx with status := TxStatus.completed }
            else otx).total_price * (2 / 100),
        (if otx.id = txid then { otx with status := TxStatus.completed }
          else otx).total_price * (2 / 100), ?_⟩
      simp only [acceptOffer, h1, h2, hexp, Bool.false_eq_true, if_false, hpr, h5']

/-- C2 amended-claim witness: on `dbC4` an accept at time 100 (before
the 1805 expiry) succeeds. -/
theorem accept_expiry_recheck_behavior_witness :
    ∃ ortid refund fee,
      (acceptOffer dbC4 3 100).2 = .ok 2 ortid refund fee :=
  (accept_expiry_recheck_behavior dbC4 3 100
    ⟨3, 2, 50, .pending, .waitlist⟩ ⟨2, 3, 10, 100, 2, .reserved, 5⟩
    ⟨5, 2, 100, 1, some 5, some 1805⟩ 5 1805
    (by decide) (by decide) (by decide) (by decide) (by decide)).2
    (by decide) (by decide)

/-! ## Claim C7: the sweep machinery -/

/-- Shorthand for the (user, event) key of a waitlist entry. -/
theorem entry_match_unique (l : List WaitlistEntry)
    (hk : (l.map (fun w => (w.user_id, w.event_id))).Nodup)
    {uid eid : Nat} {x y : WaitlistEntry} (hx : x ∈ l) (hy : y ∈ l)
    (hpx : x.user_id = uid ∧ x.event_id = eid)
    (hpy : y.user_id = uid ∧ y.event_id = eid) : x = y :=
  List.inj_on_of_nodup_map hk hx hy (by
    rw [hpx.1, hpx.2, hpy.1, hpy.2])

theorem find?_entry_of_keysNodup (l : List WaitlistEntry)
    (hk : (l.map (fun w => (w.user_id, w.event_id))).Nodup)
    {w : WaitlistEntry} (hw : w ∈ l) :
    l.find? (fun x =>
      decide (x.user_id = w.user_id ∧ x.event_id = w.event_id)) = some w := by
  induction l with
  | nil => cases hw
  | cons a l ih =>
    rw [List.map_cons, List.nodup_cons] at hk
    rcases List.mem_cons.mp hw with rfl | hwl
    · exact List.find?_cons_of_pos _ (by simp)
    · by_cases ha : a.user_id = w.user_id ∧ a.event_id = w.event_id
      · exact absurd (by
          rw [ha.1, ha.2]
          exact List.mem_map_of_mem _ hwl) hk.1
      · rw [List.find?_cons_of_neg _ (by simpa using ha)]
        exact ih hk.2 hwl

/-- A key lookup in a sublist-by-filter either fails or agrees with the
lookup in the full list (when keys are unique). -/
theorem find?_entry_filter (l : List WaitlistEntry) (q : WaitlistEntry → Bool)
    (uid eid : Nat)
    (hk : (l.map (fun w => (w.user_id, w.event_id))).Nodup) :
    (l.filter q).find? (fun x =>
      decide (x.user_id = uid ∧ x.event_id = eid)) = none ∨
    (l.filter q).find? (fun x =>
      decide (x.user_id = uid ∧ x.event_id = eid)) =
      l.find? (fun x => decide (x.user_id = uid ∧ x.event_id = eid)) := by
  cases h' : (l.filter q).find? (fun x =>
      decide (x.user_id = uid ∧ x.event_id = eid)) with
  | none => exact Or.inl rfl
  | some w' =>
    right
    have hw'l : w' ∈ l := (List.mem_filter.mp (List.mem_of_find?_eq_some h')).1
    have hpw' : w'.user_id = uid ∧ w'.event_id = eid := by
      simpa using List.find?_some h'
    cases h : l.find? (fun x => decide (x.user_id = uid ∧ x.event_id = eid)) with
    | none =>
      exact absurd (by simpa using hpw')
        (List.find?_eq_none.mp h w' hw'l)
    | some w =>
      have hwl : w ∈ l := List.mem_of_find?_eq_some h
      have hpw : w.user_id = uid ∧ w.event_id = eid := by
        simpa using List.find?_some h
      rw [entry_match_unique l hk hw'l hwl hpw' hpw]

/-! Field lemmas for the sweeper's delete phase. -/

theorem sweepRowDeletes_waitlist (db : DB) (r : ExpiredRow) :
    (sweepRowDeletes db r).waitlist =
      if r.waitlist_id = 0 then db.waitlist
      else db.waitlist.filter (fun w => decide (¬(w.id = r.waitlist_id))) := by
  unfold sweepRowDeletes
  split <;> rfl

theorem sweepRowDeletes_tickets (db : DB) (r : ExpiredRow) :
    (sweepRowDeletes db r).tickets =
      db.tickets.filter (fun t => decide (¬(t.id = r.ticketId))) := by
  unfold sweepRowDeletes
  split <;> rfl

theorem sweepRowDeletes_transactions (db : DB) (r : ExpiredRow) :
    (sweepRowDeletes db r).transactions =
      db.transactions.map (fun tx =>
        if tx.id = r.transaction_id then { tx with status := TxStatus.expired }
        else tx) := by
  unfold sweepRowDeletes
  split <;> rfl

theorem sweepRowDeletes_nextTxId (db : DB) (r : ExpiredRow) :
    (sweepRowDeletes db r).nextTxId = db.nextTxId := by
  unfold sweepRowDeletes
  split <;> rfl

theorem sweepRowDeletes_ticketTypes (db : DB) (r : ExpiredRow) :
    (sweepRowDeletes db r).ticketTypes = db.ticketTypes := by
  unfold sweepRowDeletes
  split <;> rfl

theorem sweepRowDeletes_events (db : DB) (r : ExpiredRow) :
    (sweepRowDeletes db r).events = db.events := by
  unfold sweepRowDeletes
  split <;> rfl

/-! Well-formedness is preserved by the sweep's per-row work. -/

theorem WFc_sweepRowDeletes (db : DB) (r : ExpiredRow) (h : WFc db) :
    WFc (sweepRowDeletes db r) := by
  obtain ⟨hk, hb1, hb2⟩ := h
  refine ⟨?_, ?_, ?_⟩
  · rw [sweepRowDeletes_waitlist]
    split
    · exact hk
    · exact ((List.filter_sublist _).map _).nodup hk
  · intro t ht
    rw [sweepRowDeletes_tickets] at ht
    rw [sweepRowDeletes_nextTxId]
    exact hb1 t (List.mem_filter.mp ht).1
  · intro tx htx
    rw [sweepRowDeletes_transactions] at htx
    rw [sweepRowDeletes_nextTxId]
    obtain ⟨tx0, htx0, rfl⟩ := List.mem_map.mp htx
    by_cases hx : tx0.id = r.transaction_id
    · simpa [hx] using hb2 tx0 htx0
    · simpa [hx] using hb2 tx0 htx0

theorem WFc_assign (db : DB) (e tt now : Nat) (h : WFc db) :
    WFc (assignTicketToWaitlist db e tt now).1 := by
  obtain ⟨hk, hb1, hb2⟩ := h
  unfold assignTicketToWaitlist
  split
  · exact ⟨hk, hb1, hb2⟩
  · rename_i w hw
    refine ⟨?_, ?_, ?_⟩
    · show ((db.waitlist.map (fun x =>
        if x.id = w.id then claimStamp now x else x)).map
          (fun w => (w.user_id, w.event_id))).Nodup
      have : (db.waitlist.map (fun x =>
          if x.id = w.id then claimStamp now x else x)).map
            (fun w => (w.user_id, w.event_id)) =
          db.waitlist.map (fun w => (w.user_id, w.event_id)) := by
        rw [List.map_map]
        apply List.map_congr_left
        intro x _
        by_cases hx : x.id = w.id <;> simp [hx, claimStamp]
      rw [this]
      exact hk
    · intro t ht
      rcases List.mem_append.mp ht with htl | htr
      · exact Nat.lt_succ_of_lt (hb1 t htl)
      · rw [List.mem_singleton.mp htr]
        exact Nat.lt_succ_self _
    · intro tx htx
      rcases List.mem_append.mp htx with htl | htr
      · exact Nat.lt_succ_of_lt (hb2 tx htl)
      · rw [List.mem_singleton.mp htr]
        exact Nat.lt_succ_self _

theorem WFc_processRow (db : DB) (now : Nat) (r : ExpiredRow) (h : WFc db) :
    WFc (processExpiredRow db now r) :=
  WFc_assign _ _ _ _ (WFc_sweepRowDeletes db r h)

theorem find?_append_singleton_ne (l : List Transaction) (tx : Transaction)
    (tid' : Nat) (hne : ¬(tx.id = tid')) :
    (l ++ [tx]).find? (fun x => decide (x.id = tid')) =
      l.find? (fun x => decide (x.id = tid')) := by
  rw [List.find?_append]
  cases h : l.find? (fun x => decide (x.id = tid')) with
  | none => simp [List.find?, hne]
  | some a => rfl

/-- The Offer Engine does not change the status of any transaction with
an id below the id counter (it only appends a fresh one). -/
theorem txStatusOf_assign (db : DB) (e tt now : Nat) (tid' : Nat)
    (hb : tid' < db.nextTxId) :
    txStatusOf (assignTicketToWaitlist db e tt now).1 tid' = txStatusOf db tid' := by
  unfold assignTicketToWaitlist
  split
  · rfl
  · unfold txStatusOf
    dsimp only
    rw [find?_append_singleton_ne _ _ _ (by
      show ¬(db.nextTxId = tid')
      omega)]

theorem txStatusOf_processRow_or (u : DB) (now : Nat) (r : ExpiredRow)
    (tid' : Nat) (hb : tid' < u.nextTxId) :
    txStatusOf (processExpiredRow u now r) tid' = txStatusOf u tid' ∨
    txStatusOf (processExpiredRow u now r) tid' = some .expired := by
  unfold processExpiredRow
  rw [txStatusOf_assign _ _ _ _ _ (by rw [sweepRowDeletes_nextTxId]; exact hb)]
  unfold txStatusOf
  rw [sweepRowDeletes_transactions, find?_map_of_pred _ _ _ (by
    intro a
    by_cases hx : a.id = r.transaction_id <;> simp [hx])]
  cases h : u.transactions.find? (fun x => decide (x.id = tid')) with
  | none => exact Or.inl rfl
  | some tx0 =>
    by_cases hx : tx0.id = r.transaction_id
    · right
      simp [hx]
    · left
      simp [hx]

theorem txStatusOf_processRow_ne (u : DB) (now : Nat) (r : ExpiredRow)
    (tid' : Nat) (hne : ¬(r.transaction_id = tid')) (hb : tid' < u.nextTxId) :
    txStatusOf (processExpiredRow u now r) tid' = txStatusOf u tid' := by
  unfold processExpiredRow
  rw [txStatusOf_assign _ _ _ _ _ (by rw [sweepRowDeletes_nextTxId]; exact hb)]
  unfold txStatusOf
  rw [sweepRowDeletes_transactions, find?_map_of_pred _ _ _ (by
    intro a
    by_cases hx : a.id = r.transaction_id <;> simp [hx])]
  cases h : u.transactions.find? (fun x => decide (x.id = tid')) with
  | none => rfl
  | some tx0 =>
    have htid : tx0.id = tid' := by simpa using List.find?_some h
    have : ¬(tx0.id = r.transaction_id) := by
      rw [htid]
      intro hc
      exact hne hc.symm
    simp [this]

/-- A key lookup through the Offer Engine: either unchanged, or the
(unchanged-key) entry got its offer/expiry stamped. -/
theorem entryFor_assign_or (db : DB) (e tt now uid eid : Nat) :
    entryFor (assignTicketToWaitlist db e tt now).1 uid eid =
      entryFor db uid eid ∨
    (∃ w, entryFor db uid eid = some w ∧
      entryFor (assignTicketToWaitlist db e tt now).1 uid eid =
        some (claimStamp now w)) := by
  unfold assignTicketToWaitlist
  split
  · exact Or.inl rfl
  · rename_i w0 hw0
    unfold entryFor
    dsimp only
    rw [find?_map_of_pred _ _ _ (by
      intro a
      by_cases hx : a.id = w0.id <;> simp [hx, claimStamp])]
    cases h : db.waitlist.find? (fun x =>
        decide (x.user_id = uid ∧ x.event_id = eid)) with
    | none => exact Or.inl rfl
    | some w =>
      by_cases hid : w.id = w0.id
      · exact Or.inr ⟨w, rfl, by simp [hid]⟩
      · exact Or.inl (by simp [hid])

/-- A key lookup through a whole per-row sweep unit: either it now
fails, or it finds the same entry the pre-state found, possibly with a
fresh offer/expiry stamp. -/
theorem entryFor_processRow_or (u : DB) (now : Nat) (r : ExpiredRow)
    (uid eid : Nat)
    (hk : (u.waitlist.map (fun w => (w.user_id, w.event_id))).Nodup) :
    entryFor (processExpiredRow u now r) uid eid = none ∨
    (∃ w, entryFor u uid eid = some w ∧
      (entryFor (processExpiredRow u now r) uid eid = some w ∨
       entryFor (processExpiredRow u now r) uid eid =
         some (claimStamp now w))) := by
  have hd3 : entryFor (sweepRowDeletes u r) uid eid = none ∨
      entryFor (sweepRowDeletes u r) uid eid = entryFor u uid eid := by
    unfold entryFor
    rw [sweepRowDeletes_waitlist]
    split
    · exact Or.inr rfl
    · exact find?_entry_filter u.waitlist _ uid eid hk
  unfold processExpiredRow
  rcases entryFor_assign_or (sweepRowDeletes u r) r.event_id r.ticket_type_id
      now uid eid with h | ⟨w, hw, h⟩
  · rcases hd3 with h3 | h3
    · exact Or.inl (h.trans h3)
    · rw [h, h3]
      cases he : entryFor u uid eid with
      | none => exact Or.inl rfl
      | some w => exact Or.inr ⟨w, rfl, Or.inl rfl⟩
  · rcases hd3 with h3 | h3
    · rw [hw] at h3
      cases h3
    · rw [hw] at h3
      exact Or.inr ⟨w, h3.symm, Or.inr h⟩

theorem isExpiredRow_some_elim {db : DB} {now : Nat} {t : Ticket}
    {r : ExpiredRow} (h : isExpiredRow db now t = some r) :
    r.ticketId = t.id ∧ r.transaction_id = t.transaction_id ∧
    (entryFor db t.user_id t.event_id).isSome = true := by
  unfold isExpiredRow at h
  cases he : entryFor db t.user_id t.event_id with
  | none =>
    rw [he] at h
    cases h
  | some w =>
    rw [he] at h
    dsimp only at h
    cases hre : w.reservation_expires_at with
    | none =>
      rw [hre] at h
      cases h
    | some e =>
      rw [hre] at h
      dsimp only at h
      by_cases hc : t.status = .reserved ∧
          txStatusOf db t.transaction_id = some .pending ∧ e < now
      · rw [if_pos hc] at h
        cases h
        exact ⟨rfl, rfl, rfl⟩
      · rw [if_neg hc] at h
        cases h

/-- A per-row sweep unit never turns a non-matching ticket of the
pre-state into a match of its `SELECT` (fresh stamps lie in the future,
status updates only retire transactions, entries are only deleted). -/
theorem processRow_no_new_viol (u : DB) (now : Nat) (r : ExpiredRow)
    (hWF : WFc u) (t : Ticket) (ht : t ∈ u.tickets)
    (hnone : isExpiredRow u now t = none) :
    isExpiredRow (processExpiredRow u now r) now t = none := by
  have hb : t.transaction_id < u.nextTxId := hWF.2.1 t ht
  unfold isExpiredRow
  rcases entryFor_processRow_or u now r t.user_id t.event_id hWF.1 with
    h | ⟨w, hwu, hcase⟩
  · rw [h]
  · rcases hcase with h' | h'
    · rw [h']
      dsimp only
      unfold isExpiredRow at hnone
      rw [hwu] at hnone
      dsimp only at hnone
      cases hre : w.reservation_expires_at with
      | none => rfl
      | some e =>
        dsimp only
        rw [hre] at hnone
        dsimp only at hnone
        have hcond : ¬(t.status = .reserved ∧
            txStatusOf u t.transaction_id = some .pending ∧ e < now) := by
          intro hc
          rw [if_pos hc] at hnone
          cases hnone
        rcases txStatusOf_processRow_or u now r t.transaction_id hb with hts | hts
        · rw [if_neg (by
            intro hc
            exact hcond ⟨hc.1, hts ▸ hc.2.1, hc.2.2⟩)]
        · rw [if_neg (by
            intro hc
            rw [hts] at hc
            cases hc.2.1)]
    · rw [h']
      dsimp only [claimStamp]
      rw [if_neg (by
        intro hc
        exact absurd hc.2.2 (Nat.not_lt.mpr (Nat.le_add_right now _)))]

/-- The key lookup for the entry the Offer Engine just claimed finds
that entry, freshly stamped. -/
theorem entryFor_assign_claimed (db : DB) (e tt now : Nat) (w0 : WaitlistEntry)
    (hk : (db.waitlist.map (fun w => (w.user_id, w.event_id))).Nodup)
    (hw0 : minByKey (fun w => w.joined_at)
      (db.waitlist.filter fun w =>
        decide (w.event_id = e ∧ w.offered_at = none)) = some w0) :
    entryFor (assignTicketToWaitlist db e tt now).1 w0.user_id e =
      some (claimStamp now w0) := by
  have hw0m := List.mem_filter.mp (minByKey_mem hw0)
  have hw0mem : w0 ∈ db.waitlist := hw0m.1
  have hw0ev : w0.event_id = e := by
    have := hw0m.2
    simp at this
    exact this.1
  have hfind : db.waitlist.find? (fun x =>
      decide (x.user_id = w0.user_id ∧ x.event_id = e)) = some w0 := by
    rw [← hw0ev]
    exact find?_entry_of_keysNodup _ hk hw0mem
  unfold assignTicketToWaitlist
  rw [hw0]
  unfold entryFor
  show ((db.waitlist.map (fun x =>
      if x.id = w0.id then claimStamp now x else x)).find?
    (fun x => decide (x.user_id = w0.user_id ∧ x.event_id = e))) =
      some (claimStamp now w0)
  rw [find?_map_of_pred _ _ _ (by
    intro a
    by_cases hx : a.id = w0.id <;> simp [hx, claimStamp]), hfind]
  simp

/-- Every ticket of a per-row sweep unit's post-state either does not
match the sweeper's `SELECT` there, or is a pre-state ticket other than
the processed row's. -/
theorem processRow_viol_source (u : DB) (now : Nat) (r : ExpiredRow)
    (hWF : WFc u) :
    ∀ t ∈ (processExpiredRow u now r).tickets,
      isExpiredRow (processExpiredRow u now r) now t = none ∨
      (t ∈ u.tickets ∧ ¬(t.id = r.ticketId)) := by
  intro t ht
  have hk3 : ((sweepRowDeletes u r).waitlist.map
      (fun w => (w.user_id, w.event_id))).Nodup :=
    (WFc_sweepRowDeletes u r hWF).1
  cases hw0 : minByKey (fun w => w.joined_at)
      ((sweepRowDeletes u r).waitlist.filter fun w =>
        decide (w.event_id = r.event_id ∧ w.offered_at = none)) with
  | none =>
    have hid : processExpiredRow u now r = sweepRowDeletes u r := by
      unfold processExpiredRow assignTicketToWaitlist
      rw [hw0]
    rw [hid, sweepRowDeletes_tickets] at ht
    have hm := List.mem_filter.mp ht
    exact Or.inr ⟨hm.1, by simpa using hm.2⟩
  | some w0 =>
    have htk : (processExpiredRow u now r).tickets =
        (sweepRowDeletes u r).tickets ++
          [⟨(sweepRowDeletes u r).nextTicketId, (sweepRowDeletes u r).nextTxId,
            r.ticket_type_id, r.event_id, w0.user_id, .reserved, now⟩] := by
      unfold processExpiredRow assignTicketToWaitlist
      rw [hw0]
    rw [htk] at ht
    rcases List.mem_append.mp ht with htl | htr
    · rw [sweepRowDeletes_tickets] at htl
      have hm := List.mem_filter.mp htl
      exact Or.inr ⟨hm.1, by simpa using hm.2⟩
    · left
      rw [List.mem_singleton] at htr
      subst htr
      have hE := entryFor_assign_claimed (sweepRowDeletes u r) r.event_id
        r.ticket_type_id now w0 hk3 hw0
      unfold processExpiredRow
      unfold isExpiredRow
      dsimp only
      rw [hE]
      dsimp only [claimStamp]
      rw [if_neg (by
        intro hc
        exact absurd hc.2.2 (Nat.not_lt.mpr (Nat.le_add_right now _)))]

/-- Folding the per-row work over any row list whose ids cover all
current matches leaves a state with no matching ticket at all. -/
theorem cleanup_foldl_no_viol (now : Nat) :
    ∀ (rows : List ExpiredRow) (u : DB), WFc u →
      (∀ t ∈ u.tickets,
        isExpiredRow u now t = none ∨ t.id ∈ rows.map (·.ticketId)) →
      ∀ t ∈ (rows.foldl (fun d r => processExpiredRow d now r) u).tickets,
        isExpiredRow (rows.foldl (fun d r => processExpiredRow d now r) u)
          now t = none := by
  intro rows
  induction rows with
  | nil =>
    intro u hWF hv t ht
    rcases hv t ht with h | h
    · exact h
    · simp at h
  | cons r rows ih =>
    intro u hWF hv
    rw [List.foldl_cons]
    apply ih _ (WFc_processRow u now r hWF)
    intro t ht
    rcases processRow_viol_source u now r hWF t ht with h | ⟨htu, hne⟩
    · exact Or.inl h
    · rcases hv t htu with h | h
      · exact Or.inl (processRow_no_new_viol u now r hWF t htu h)
      · rw [List.map_cons, List.mem_cons] at h
        rcases h with h | h
        · exact absurd h hne
        · exact Or.inr h

/-- C7: with unique waitlist (user, event) keys and id counters
dominating existing ids, a second sweep pass run immediately after a
first one (same clock reading, i.e. no new expirations in between)
cleans 0 rows. -/
theorem sweep_idempotent (db : DB) (now : Nat) (hWF : WFc db) :
    (cleanupExpiredReservations
      (cleanupExpiredReservations db now).1 now).2 = 0 := by
  have base : ∀ t ∈ db.tickets,
      isExpiredRow db now t = none ∨
      t.id ∈ (selectExpired db now).map (·.ticketId) := by
    intro t ht
    cases h : isExpiredRow db now t with
    | none => exact Or.inl rfl
    | some r =>
      right
      have hrid : r.ticketId = t.id := (isExpiredRow_some_elim h).1
      have hmem : r ∈ selectExpired db now :=
        List.mem_filterMap.mpr ⟨t, ht, h⟩
      rw [← hrid]
      exact List.mem_map_of_mem _ hmem
  have hall := cleanup_foldl_no_viol now (selectExpired db now) db hWF base
  have hnil : selectExpired ((selectExpired db now).foldl
      (fun d r => processExpiredRow d now r) db) now = [] := by
    unfold selectExpired
    exact List.filterMap_eq_nil_iff.mpr hall
  show (selectExpired ((selectExpired db now).foldl
      (fun d r => processExpiredRow d now r) db) now).length = 0
  rw [hnil]
  rfl

/-- C7 witness: on `dbC7` (one expired claimed reservation, one person
waiting behind it) the second immediate sweep pass cleans 0 rows. -/
theorem sweep_idempotent_witness :
    (cleanupExpiredReservations
      (cleanupExpiredReservations dbC7 2000).1 2000).2 = 0 :=
  sweep_idempotent dbC7 2000 (by decide)

/-! ## Claim C9 -/

/-- C9 counterexample: a reachable trace in which a fast-path offer
(user 2, transaction 3, reserved ticket 3, no waitlist entry) later
fails its accept with ReservationExpired and is selected by the sweep:
the pending-return ticket is deleted, user 2 rejoins normally, a
self-return claims the new entry (expiry 1900), and at time 2000 both
the accept of transaction 3 is rejected as expired and the sweep
reclaims ticket 3. -/
theorem fastpath_offer_can_expire_after_rejoin :
    (joinWaitlist dbC9 2 100 100).2 = .offered 3 ∧
    dbC9a.waitlist = [] ∧
    (acceptOffer dbC9d 3 2000).2 = .expired ∧
    3 ∈ (selectExpired dbC9d 2000).map (·.ticketId) ∧
    (cleanupExpiredReservations dbC9d 2000).1.tickets.find?
      (fun t => decide (t.id = 3)) = none ∧
    txStatusOf (cleanupExpiredReservations dbC9d 2000).1 3 = some .expired := by
  refine ⟨by decide, by decide, by decide, by decide, by decide, by decide⟩

/-- C9 (amended): the fast path itself creates no waitlist entry, and as
long as the accepting user has no waitlist entry for the event, the
accept of the offer's transaction never fails with ReservationExpired
and no sweep pass selects the reserved ticket; the 30-minute window can
only bite if the user later acquires a claimed entry for the event. -/
theorem fastpath_no_entry_no_expiry :
    (∀ (db : DB) (u e now txid : Nat),
      (joinWaitlist db u e now).2 = .offered txid →
      (joinWaitlist db u e now).1.waitlist = db.waitlist) ∧
    (∀ (db : DB) (txid now : Nat) (txn : Transaction) (tk : Ticket),
      db.transactions.find? (fun tx =>
        decide (tx.id = txid ∧ tx.status = .pending ∧
                tx.payment_method = .waitlist)) = some txn →
      db.tickets.find? (fun x =>
        decide (x.transaction_id = txid ∧ x.status = .reserved)) = some tk →
      entryFor db txn.user_id tk.event_id = none →
      ¬((acceptOffer db txid now).2 = .expired)) ∧
    (∀ (db : DB) (now : Nat) (t : Ticket),
      entryFor db t.user_id t.event_id = none →
      isExpiredRow db now t = none) := by
  refine ⟨?_, ?_, ?_⟩
  · intro db u e now txid
    unfold joinWaitlist
    repeat' split
    all_goals intro h
    all_goals try rfl
    all_goals simp at h
  · intro db txid now txn tk h1 h2 h3
    have hexp : acceptExpiredCheck db txn.user_id tk.event_id now = false := by
      unfold acceptExpiredCheck
      rw [h3]
    intro hcon
    simp only [acceptOffer, h1, h2, hexp, Bool.false_eq_true, if_false] at hcon
    split at hcon
    · simp at hcon
    · split at hcon
      · simp at hcon
      · simp at hcon
  · intro db now t h
    unfold isExpiredRow
    rw [h]

/-- C9 amended-claim witness: immediately after the fast path on `dbC9`
the waitlist is unchanged, and in that state the accept of transaction 3
is not rejected as expired and ticket 3 does not match the sweep, at any
late time (2000). -/
theorem fastpath_no_entry_no_expiry_witness :
    (joinWaitlist dbC9 2 100 100).1.waitlist = dbC9.waitlist ∧
    ¬((acceptOffer dbC9a 3 2000).2 = .expired) ∧
    isExpiredRow dbC9a 2000 ⟨3, 3, 10, 100, 2, .reserved, 100⟩ = none :=
  ⟨fastpath_no_entry_no_expiry.1 dbC9 2 100 100 3 (by decide),
   fastpath_no_entry_no_expiry.2.1 dbC9a 3 2000
     ⟨3, 2, 20, .pending, .waitlist⟩ ⟨3, 3, 10, 100, 2, .reserved, 100⟩
     (by decide) (by decide) (by decide),
   fastpath_no_entry_no_expiry.2.2 dbC9a 2000
     ⟨3, 3, 10, 100, 2, .reserved, 100⟩ (by decide)⟩

/-! ## Claim C10 -/

/-- C10 counterexample: leave-waitlist deletes the claimed entry (offer
timestamp set, live reserved ticket 1 and pending transaction 1) — but
after user 2 rejoins and a self-return claims the new entry (expiry
1900), the sweep pass at time 2000 selects ticket 1, deletes it and
expires transaction 1; the reservation was resolved by the sweeper, not
by an accept or decline. -/
theorem leave_waitlist_then_sweep_can_expire :
    (leaveWaitlist dbC10 1).2 = some ⟨1, 2, 100, 0, some 0, some 1800⟩ ∧
    dbC10a.waitlist = [] ∧
    1 ∈ (selectExpired dbC10c 2000).map (·.ticketId) ∧
    (cleanupExpiredReservations dbC10c 2000).1.tickets.find?
      (fun t => decide (t.id = 1)) = none ∧
    txStatusOf (cleanupExpiredReservations dbC10c 2000).1 1 = some .expired := by
  refine ⟨by decide, by decide, by decide, by decide, by decide⟩

theorem processRow_mem_ticket (u : DB) (now : Nat) (r : ExpiredRow)
    {t : Ticket} (ht : t ∈ u.tickets) (hne : ¬(t.id = r.ticketId)) :
    t ∈ (processExpiredRow u now r).tickets := by
  have hmem3 : t ∈ (sweepRowDeletes u r).tickets := by
    rw [sweepRowDeletes_tickets]
    exact List.mem_filter.mpr ⟨ht, by simpa using hne⟩
  unfold processExpiredRow assignTicketToWaitlist
  split
  · exact hmem3
  · exact List.mem_append_left _ hmem3

theorem processRow_nextTxId_mono (u : DB) (now : Nat) (r : ExpiredRow) :
    u.nextTxId ≤ (processExpiredRow u now r).nextTxId := by
  unfold processExpiredRow assignTicketToWaitlist
  split
  · rw [sweepRowDeletes_nextTxId]
  · show u.nextTxId ≤ (sweepRowDeletes u r).nextTxId + 1
    rw [sweepRowDeletes_nextTxId]
    exact Nat.le_succ _

/-- A ticket none of whose row ids / transaction ids occur in the
processed snapshot survives a whole sweep pass with its transaction's
status unchanged. -/
theorem cleanup_foldl_untouched (now : Nat) :
    ∀ (rows : List ExpiredRow) (u : DB) (t : Ticket),
      (∀ r ∈ rows, ¬(r.ticketId = t.id) ∧
        ¬(r.transaction_id = t.transaction_id)) →
      t ∈ u.tickets → t.transaction_id < u.nextTxId →
      t ∈ (rows.foldl (fun d r => processExpiredRow d now r) u).tickets ∧
      txStatusOf (rows.foldl (fun d r => processExpiredRow d now r) u)
        t.transaction_id = txStatusOf u t.transaction_id := by
  intro rows
  induction rows with
  | nil =>
    intro u t _ ht _
    exact ⟨ht, rfl⟩
  | cons r rows ih =>
    intro u t hr ht hb
    rw [List.foldl_cons]
    have h1 := hr r (by simp)
    have hmem' : t ∈ (processExpiredRow u now r).tickets :=
      processRow_mem_ticket u now r ht (fun hc => h1.1 hc.symm)
    have hb' : t.transaction_id < (processExpiredRow u now r).nextTxId :=
      Nat.lt_of_lt_of_le hb (processRow_nextTxId_mono u now r)
    have hrest := ih (processExpiredRow u now r) t
      (fun r' hr' => hr r' (by simp [hr'])) hmem' hb'
    exact ⟨hrest.1,
      hrest.2.trans (txStatusOf_processRow_ne u now r t.transaction_id h1.2 hb)⟩

/-- C10 (amended): leave-waitlist deletes an entry unconditionally even
when it is claimed; afterwards, while the user has no waitlist entry
for the event (and the reserved ticket's transaction backs only that
ticket), no sweep pass deletes the reserved ticket or changes its
pending transaction — the reservation then remains resolvable only by
an explicit accept or decline (or by the user re-acquiring a claimed
entry, which re-arms the sweep, as the counterexample shows). -/
theorem leave_waitlist_unconditional_sweep_frame :
    (∀ (db : DB) (wid : Nat) (w : WaitlistEntry),
      db.waitlist.find? (fun x => decide (x.id = wid)) = some w →
      leaveWaitlist db wid = (deleteWaitlistRow db wid, some w)) ∧
    (∀ (db : DB) (now : Nat) (t : Ticket),
      (db.tickets.map (·.id)).Nodup →
      t ∈ db.tickets →
      entryFor db t.user_id t.event_id = none →
      (∀ t2 ∈ db.tickets, t2.transaction_id = t.transaction_id → t2 = t) →
      t.transaction_id < db.nextTxId →
      t ∈ (cleanupExpiredReservations db now).1.tickets ∧
      txStatusOf (cleanupExpiredReservations db now).1 t.transaction_id =
        txStatusOf db t.transaction_id) := by
  constructor
  · intro db wid w h
    unfold leaveWaitlist
    rw [h]
  · intro db now t hnd ht hnoe htx1 hb
    have hids : ∀ r ∈ selectExpired db now,
        ¬(r.ticketId = t.id) ∧ ¬(r.transaction_id = t.transaction_id) := by
      intro r hr
      obtain ⟨t', ht', hsome⟩ := List.mem_filterMap.mp hr
      obtain ⟨hrid, hrtx, hiss⟩ := isExpiredRow_some_elim hsome
      constructor
      · intro hc
        have heq : t' = t :=
          List.inj_on_of_nodup_map hnd ht' ht (by rw [← hrid, hc])
        subst heq
        rw [hnoe] at hiss
        simp at hiss
      · intro hc
        have heq : t' = t := htx1 t' ht' (by rw [← hrtx, hc])
        subst heq
        rw [hnoe] at hiss
        simp at hiss
    exact cleanup_foldl_untouched now (selectExpired db now) db t hids ht hb

/-- C10 amended-claim witness: leaving deletes the claimed entry of
`dbC10`; in the resulting state a sweep pass at time 2000 leaves
reserved ticket 1 and its pending transaction untouched. -/
theorem leave_waitlist_unconditional_sweep_frame_witness :
    leaveWaitlist dbC10 1 =
      (deleteWaitlistRow dbC10 1, some ⟨1, 2, 100, 0, some 0, some 1800⟩) ∧
    (⟨1, 1, 10, 100, 2, .reserved, 0⟩ : Ticket) ∈
      (cleanupExpiredReservations dbC10a 2000).1.tickets ∧
    txStatusOf (cleanupExpiredReservations dbC10a 2000).1 1 =
      txStatusOf dbC10a 1 := by
  refine ⟨leave_waitlist_unconditional_sweep_frame.1 dbC10 1
    ⟨1, 2, 100, 0, some 0, some 1800⟩ (by decide), ?_⟩
  have h := leave_waitlist_unconditional_sweep_frame.2 dbC10a 2000
    ⟨1, 1, 10, 100, 2, .reserved, 0⟩
    (by decide) (by decide) (by decide) (by decide) (by decide)
  exact h

end EventGo
